import Mathlib

/-!
Verification of the vercel-gateway proxy against its specification.

The Python sources under src/src are shallowly embedded below:

* src/proxy/server.py        : quota classifier, key manager, auth check,
                               dispatcher attempt loop
* src/proxy/params/models.py : model registry, aliases, provider detection
* src/proxy/params/reasoning.py : reasoning/thinking parameter translation
* src/proxy/params/converter.py : request-body normalizer

Modelling conventions:
* JSON / Python values are modelled by the inductive `JValue`; Python
  dictionaries are association lists in insertion order (JSON objects have
  unique keys, which theorems assume where it matters).
* Python numbers (int and float alike) are modelled as exact rationals.
  All rational arithmetic used by the embedding goes through the
  kernel-reducible helpers `qAdd`, `qSub`, `qMul`, `qLt`, `qTrunc` so that
  concrete runs of the embedded code evaluate by `decide` and `rfl`.
* Code that can raise a Python exception is modelled in `Except String`.
* Instants (`time.time()`) are modelled as natural numbers; only their
  ordering and addition are used by the embedded code.
-/

/-! ## Rational helpers (kernel reducible) -/

/-- Addition on rationals, evaluated through `mkRat` so the kernel can
reduce it. -/
def qAdd (a b : ℚ) : ℚ := mkRat (a.num * b.den + b.num * a.den) (a.den * b.den)

/-- Subtraction on rationals, evaluated through `mkRat`. -/
def qSub (a b : ℚ) : ℚ := mkRat (a.num * b.den - b.num * a.den) (a.den * b.den)

/-- Multiplication on rationals, evaluated through `mkRat`. -/
def qMul (a b : ℚ) : ℚ := mkRat (a.num * b.num) (a.den * b.den)

/-- Strict comparison on rationals by cross multiplication. -/
def qLt (a b : ℚ) : Bool := decide (a.num * (b.den : Int) < b.num * (a.den : Int))

/-- Truncation toward zero, the semantics of the Python builtin int() on a
number. -/
def qTrunc (a : ℚ) : Int := Int.tdiv a.num a.den

/-! ## Strings and Python string builtins

Strings are handled as lists of characters.  Python lower() is modelled by
`Char.toLower`; all pattern texts below are ASCII so this is exact. -/

/-- Substring containment, the semantics of the Python `in` operator on
strings: `containsSub pat s` holds iff `pat` occurs contiguously in `s`. -/
def containsSub (pat : List Char) : List Char → Bool
  | [] => pat.isPrefixOf []
  | c :: rest => pat.isPrefixOf (c :: rest) || containsSub pat rest

/-- Helper for regex patterns of the shape `A.*B`: after the `A` part has
been consumed, `gapMatch b s` checks that `b` starts at some position of
`s` reachable by consuming only non-newline characters (regex `.` does not
match a newline). -/
def gapMatch (b : List Char) : List Char → Bool
  | [] => b.isPrefixOf []
  | c :: rest => b.isPrefixOf (c :: rest) || (c != '\n' && gapMatch b rest)

/-- Regex search for the pattern `a.*b` (as used by Python re.search with
the patterns limit.*reached and rate.*limit): some occurrence of `a` is
followed, with no intervening newline, by an occurrence of `b`. -/
def dotStarSearch (a b : List Char) : List Char → Bool
  | [] => a.isPrefixOf [] && gapMatch b []
  | c :: rest =>
    (a.isPrefixOf (c :: rest) && gapMatch b ((c :: rest).drop a.length))
      || dotStarSearch a b rest

/-- Python str.lower restricted to the characters that occur in request
bodies; on ASCII it agrees with Python exactly. -/
def lowerChars (s : List Char) : List Char := s.map Char.toLower

/-- Characters stripped by Python str.strip() with no argument (ASCII
whitespace). -/
def isPySpace (c : Char) : Bool :=
  c == ' ' || c == '\t' || c == '\n' || c == '\r' || c == '\x0b' || c == '\x0c'

/-- Python str.strip(): drop whitespace from both ends. -/
def pyStrip (s : List Char) : List Char :=
  ((s.dropWhile isPySpace).reverse.dropWhile isPySpace).reverse

/-- Python str.replace(pat, repl): replace every non-overlapping occurrence
of `pat`, scanning left to right.  Implemented with explicit fuel (one unit
per character of input) to keep the definition kernel reducible; any fuel
at least the length of the input gives the Python semantics. -/
def replaceFuel (pat repl : List Char) : Nat → List Char → List Char
  | 0, l => l
  | _, [] => []
  | fuel + 1, c :: rest =>
    if pat.isPrefixOf (c :: rest) then
      repl ++ replaceFuel pat repl fuel (List.drop (pat.length - 1) rest)
    else
      c :: replaceFuel pat repl fuel rest

/-- Python str.replace(pat, repl) for a non-empty pattern. -/
def pyReplace (s pat repl : List Char) : List Char :=
  replaceFuel pat repl s.length s

/-! ## Quota classifier (server.py, is_quota_error) -/

/-- The literal-text quota patterns of is_quota_error (every pattern except
the two containing a dot-star is a plain substring search). -/
def quotaLiteralPatterns : List (List Char) :=
  [String.toList "insufficient", String.toList "quota",
   String.toList "exceeded", String.toList "credits",
   String.toList "balance", String.toList "billing",
   String.toList "overloaded", String.toList "capacity"]

/-- True iff the lower-cased body matches one of the ten regex patterns of
is_quota_error: the eight literal patterns plus limit.*reached and
rate.*limit. -/
def quotaBodyMatches (body : List Char) : Bool :=
  let bl := lowerChars body
  quotaLiteralPatterns.any (fun p => containsSub p bl)
    || dotStarSearch (String.toList "limit") (String.toList "reached") bl
    || dotStarSearch (String.toList "rate") (String.toList "limit") bl

/-- server.py is_quota_error: classify an upstream failure as a quota /
credit exhaustion.  The status gate is written exactly as in the source,
status_code in (402, 429, 403). -/
def is_quota_error (status_code : Nat) (body : List Char) : Bool :=
  if status_code == 402 || status_code == 429 || status_code == 403 then
    quotaBodyMatches body
  else
    false

/-! ## Auth check (server.py, check_auth) -/

/-- server.py check_auth: the Authorization header with every occurrence of
the substring "Bearer " removed and surrounding whitespace stripped must
equal the configured AUTH_KEY. -/
def check_auth (auth : List Char) (authKey : List Char) : Bool :=
  pyStrip (pyReplace auth (String.toList "Bearer ") []) == authKey

/-! ## Theorems for C1 (quota classifier) -/

/-- Replacing a pattern that does not occur in the input leaves the input
unchanged, for any amount of fuel. -/
theorem replaceFuel_of_not_contains (pat repl : List Char) :
    ∀ (fuel : Nat) (s : List Char), containsSub pat s = false →
      replaceFuel pat repl fuel s = s := by
  intro fuel
  induction fuel with
  | zero => intro s _; cases s <;> rfl
  | succ n ih =>
    intro s h
    cases s with
    | nil => rfl
    | cons c rest =>
      unfold containsSub at h
      simp only [Bool.or_eq_false_iff] at h
      unfold replaceFuel
      rw [if_neg (by simp [h.1]), ih rest h.2]

/-- Claim C1: is_quota_error returns true if and only if the status is one
of 402, 403, 429 and the lower-cased body matches at least one of the ten
quota regex patterns; for every other pair it returns false. -/
theorem is_quota_error_iff (status : Nat) (body : List Char) :
    is_quota_error status body = true ↔
      ((status = 402 ∨ status = 403 ∨ status = 429) ∧ quotaBodyMatches body = true) := by
  unfold is_quota_error
  by_cases h402 : status = 402
  · simp [h402]
  · by_cases h429 : status = 429
    · simp [h429]
    · by_cases h403 : status = 403
      · simp [h403]
      · simp [h402, h403, h429]

/-! ## Theorems for C10 (check_auth) -/

/-- Claim C10: check_auth accepts exactly when the Authorization header
value, after removing every occurrence of the substring "Bearer " and
stripping surrounding whitespace, equals the configured AUTH_KEY; in
particular a client that sends the bare proxy key (no "Bearer " prefix,
no surrounding whitespace) is authenticated successfully. -/
theorem check_auth_correct (auth key : List Char)
    (hno : containsSub (String.toList "Bearer ") key = false)
    (hws : pyStrip key = key) :
    (check_auth auth key = true ↔
      pyStrip (pyReplace auth (String.toList "Bearer ") []) = key)
    ∧ check_auth key key = true := by
  constructor
  · unfold check_auth
    exact beq_iff_eq
  · unfold check_auth pyReplace
    rw [replaceFuel_of_not_contains _ _ _ _ hno, hws]
    exact beq_self_eq_true key

/-- Witness for C10 at a concrete proxy key. -/
theorem check_auth_correct_witness :
    (check_auth (String.toList "Bearer abc") (String.toList "sk-test-123") = true ↔
      pyStrip (pyReplace (String.toList "Bearer abc") (String.toList "Bearer ") [])
        = String.toList "sk-test-123")
    ∧ check_auth (String.toList "sk-test-123") (String.toList "sk-test-123") = true :=
  check_auth_correct (String.toList "Bearer abc") (String.toList "sk-test-123")
    (by decide) (by decide)

/-! ## Key manager (server.py, class KeyManager)

The in-memory state of the key pool.  The lazily populated Python dict
key_states is modelled as a total function with the default state the
source creates on first touch. -/

/-- Per-credential health state (server.py get_key_state default entry). -/
structure KeyState where
  disabled : Bool
  disabled_until : Nat
  error_count : Nat
  last_used : Nat
  success_count : Nat
  deriving Repr, DecidableEq

/-- The entry get_key_state creates on first touch. -/
def initialKeyState : KeyState :=
  { disabled := false, disabled_until := 0, error_count := 0,
    last_used := 0, success_count := 0 }

/-- The mutable fields of the KeyManager. -/
structure KMState where
  keys : List String
  current_index : Nat
  key_states : String → KeyState

/-- Pointwise update of the key-state map. -/
def setKeyState (f : String → KeyState) (key : String) (v : KeyState) :
    String → KeyState :=
  fun k => if k = key then v else f k

/-- The credential at a slot of the pool (out-of-range slots give the
empty string; the scan only probes in-range slots). -/
def keyAt (st : KMState) (index : Nat) : String := st.keys.getD index ""

/-- One candidate probe of the selection loop body: lazily re-enable an
expired cooldown, then return the credential if it is not disabled,
advancing current_index one past the chosen slot and stamping last_used.
A candidate that stays disabled is skipped with no state change (the
source only mutates the entry it is about to return, since an expired
disabled entry is un-disabled and immediately returned). -/
def tryCandidate (st : KMState) (now index : Nat) : Option (String × KMState) :=
  let key := keyAt st index
  let s0 := st.key_states key
  let s1 := if s0.disabled && decide (s0.disabled_until ≤ now) then
              { s0 with disabled := false }
            else s0
  if s1.disabled then none
  else
    some (key,
      { st with
          current_index := (index + 1) % st.keys.length,
          key_states := setKeyState st.key_states key { s1 with last_used := now } })

/-- The scan of select_key: for i in range(len(keys)), probe the candidate
at slot (current_index + i) mod len(keys). -/
def scanKeys (st : KMState) (now : Nat) : Nat → Nat → Option (String × KMState)
  | 0, _ => none
  | fuel + 1, i =>
    match tryCandidate st now ((st.current_index + i) % st.keys.length) with
    | some r => some r
    | none => scanKeys st now fuel (i + 1)

/-- Fallback of select_key when every candidate is cooling down: the
credential with the smallest remaining wait (first minimum wins), starting
from best_key = keys[0] and min_wait = infinity, modelled as an Option
accumulator. -/
def bestCooldown (st : KMState) (now : Nat) : String :=
  match st.keys with
  | [] => ""
  | k0 :: _ =>
    (st.keys.foldl
      (fun acc k =>
        let wait : Int := ((st.key_states k).disabled_until : Int) - (now : Int)
        match acc.2 with
        | none => (k, some wait)
        | some m => if wait < m then (k, some wait) else acc)
      (k0, (none : Option Int))).1

/-- server.py KeyManager.select_key: returns none on an empty pool,
otherwise the round-robin scan, otherwise the fallback credential (the
fallback does not change any state). -/
def select_key (st : KMState) (now : Nat) : Option String × KMState :=
  if st.keys.isEmpty then (none, st)
  else
    match scanKeys st now st.keys.length 0 with
    | some (k, st2) => (some k, st2)
    | none => (some (bestCooldown st now), st)

/-- server.py KeyManager.mark_success: increment success_count only. -/
def mark_success (st : KMState) (key : String) : KMState :=
  let s := st.key_states key
  { st with
      key_states := setKeyState st.key_states key
        { s with success_count := s.success_count + 1 } }

/-- server.py KeyManager.mark_exhausted: disable the credential for the
configured cooldown and increment error_count. -/
def mark_exhausted (st : KMState) (now cooldown : Nat) (key : String) : KMState :=
  let s := st.key_states key
  { st with
      key_states := setKeyState st.key_states key
        { s with disabled := true, disabled_until := now + cooldown,
                 error_count := s.error_count + 1 } }

/-- A key state is usable at an instant: not disabled, or its cooldown has
expired (in which case the scan lazily re-enables it). -/
def usableState (s : KeyState) (now : Nat) : Bool :=
  !s.disabled || decide (s.disabled_until ≤ now)

/-- Offset (from current_index) of the first candidate of the scan whose
state is usable, mirroring the scan order of select_key. -/
def firstUsableFrom (st : KMState) (now : Nat) : Nat → Nat → Option Nat
  | 0, _ => none
  | fuel + 1, i =>
    if usableState
        (st.key_states (keyAt st ((st.current_index + i) % st.keys.length)))
        now then
      some i
    else firstUsableFrom st now fuel (i + 1)

/-- Offset of the first usable candidate examined by select_key. -/
def firstUsable (st : KMState) (now : Nat) : Option Nat :=
  firstUsableFrom st now st.keys.length 0

/-- Iterate select_key a given number of times at a fixed instant with no
intervening mutation, collecting the returned credentials. -/
def selectIter (now : Nat) : Nat → KMState → List (Option String) × KMState
  | 0, st => ([], st)
  | n + 1, st =>
    let r := select_key st now
    let rest := selectIter now n r.2
    (r.1 :: rest.1, rest.2)

/-! ## Dispatcher attempt loop (server.py, proxy) -/

/-- Outcome of one upstream attempt as seen by the non-streaming branch of
the dispatcher (a response, a timeout, or a transport exception). -/
inductive UpstreamOutcome where
  | response (status : Nat) (body : List Char)
  | timeout
  | transportError
  deriving Repr, DecidableEq

/-- What the dispatcher hands back to the client. -/
inductive ProxyResponse where
  | config_error
  | streaming (key : String)
  | relay (status : Nat) (body : List Char)
  | gateway_timeout
  | proxy_error
  | all_keys_exhausted
  deriving Repr, DecidableEq

/-- Result of the attempt loop: the response, the key-pool state, and the
number of loop iterations that ran (each iteration calls select_key once). -/
structure AttemptResult where
  response : ProxyResponse
  state : KMState
  attempts : Nat

/-- server.py proxy, the for-attempt-in-range(max_retries) loop.  The
`remaining` argument counts the iterations range(max_retries) still
allows; `attempt` is the Python loop index (used to look up the outcome
the upstream produces for that attempt).  A streaming request returns a
StreamingResponse immediately on the first attempt that selects a key;
a classified quota failure marks the key exhausted and continues; a
timeout or transport error marks the key exhausted and continues unless
this was the last allowed attempt. -/
def attemptLoop (now cooldown : Nat) (isStream : Bool)
    (outcomes : Nat → UpstreamOutcome) :
    Nat → Nat → KMState → AttemptResult
  | _, 0, st => { response := .all_keys_exhausted, state := st, attempts := 0 }
  | attempt, remaining + 1, st =>
    match select_key st now with
    | (none, st1) => { response := .config_error, state := st1, attempts := 1 }
    | (some k, st1) =>
      if k = "" then { response := .config_error, state := st1, attempts := 1 }
      else if isStream then { response := .streaming k, state := st1, attempts := 1 }
      else
        match outcomes attempt with
        | .response status body =>
          if is_quota_error status body then
            let st2 := mark_exhausted st1 now cooldown k
            let r := attemptLoop now cooldown isStream outcomes (attempt + 1) remaining st2
            { r with attempts := r.attempts + 1 }
          else
            let st2 := if status = 200 then mark_success st1 k else st1
            { response := .relay status body, state := st2, attempts := 1 }
        | .timeout =>
          let st2 := mark_exhausted st1 now cooldown k
          if remaining = 0 then
            { response := .gateway_timeout, state := st2, attempts := 1 }
          else
            let r := attemptLoop now cooldown isStream outcomes (attempt + 1) remaining st2
            { r with attempts := r.attempts + 1 }
        | .transportError =>
          let st2 := mark_exhausted st1 now cooldown k
          if remaining = 0 then
            { response := .proxy_error, state := st2, attempts := 1 }
          else
            let r := attemptLoop now cooldown isStream outcomes (attempt + 1) remaining st2
            { r with attempts := r.attempts + 1 }

/-- server.py proxy: max_retries = min(len(keys), 5) if keys else 1. -/
def max_retries (keys : List String) : Nat :=
  if keys.isEmpty then 1 else min keys.length 5

/-- The dispatcher attempt phase for one client request. -/
def proxyDispatch (st : KMState) (now cooldown : Nat) (isStream : Bool)
    (outcomes : Nat → UpstreamOutcome) : AttemptResult :=
  attemptLoop now cooldown isStream outcomes 0 (max_retries st.keys) st


/-! ## Theorems for C2 (retry bound) -/

/-- The attempt loop performs at most `remaining` iterations. -/
theorem attemptLoop_attempts_le (now cooldown : Nat) (isStream : Bool)
    (outcomes : Nat → UpstreamOutcome) :
    ∀ (remaining attempt : Nat) (st : KMState),
      (attemptLoop now cooldown isStream outcomes attempt remaining st).attempts
        ≤ remaining := by
  intro remaining
  induction remaining with
  | zero => intro attempt st; exact Nat.le_refl 0
  | succ r ih =>
    intro attempt st
    unfold attemptLoop
    split
    · exact Nat.succ_le_succ (Nat.zero_le r)
    · split
      · exact Nat.succ_le_succ (Nat.zero_le r)
      · split
        · exact Nat.succ_le_succ (Nat.zero_le r)
        · split
          · split
            · exact Nat.succ_le_succ (ih (_ + 1) _)
            · exact Nat.succ_le_succ (Nat.zero_le r)
          · split
            · exact Nat.succ_le_succ (Nat.zero_le r)
            · exact Nat.succ_le_succ (ih (_ + 1) _)
          · split
            · exact Nat.succ_le_succ (Nat.zero_le r)
            · exact Nat.succ_le_succ (ih (_ + 1) _)

/-- Claim C2: for every client request, the number of attempt-loop
iterations (each of which calls select_key) is at most min(pool size, 5)
for a non-empty pool and at most 1 for an empty pool; the loop is a total
function of its fuel, so it terminates within that bound. -/
theorem proxy_attempt_bound (st : KMState) (now cooldown : Nat) (isStream : Bool)
    (outcomes : Nat → UpstreamOutcome) :
    (proxyDispatch st now cooldown isStream outcomes).attempts ≤
      (if st.keys = [] then 1 else min st.keys.length 5) := by
  have h := attemptLoop_attempts_le now cooldown isStream outcomes
    (max_retries st.keys) 0 st
  unfold proxyDispatch
  by_cases hk : st.keys = []
  · have h2 : max_retries st.keys = 1 := by simp [max_retries, hk]
    rw [if_pos hk, h2]
    exact h2 ▸ h
  · have h2 : max_retries st.keys = min st.keys.length 5 := by
      simp [max_retries, List.isEmpty_iff, hk]
    rw [if_neg hk, h2]
    exact h2 ▸ h

/-! ## Theorems for C4 (lazy re-enable) -/

/-- A candidate probe fails exactly when the candidate state is unusable
(disabled with an unexpired cooldown). -/
theorem tryCandidate_none_iff (st : KMState) (now index : Nat) :
    tryCandidate st now index = none ↔
      usableState (st.key_states (keyAt st index)) now = false := by
  unfold tryCandidate usableState
  by_cases h1 : (st.key_states (keyAt st index)).disabled = true
  · by_cases h2 : (st.key_states (keyAt st index)).disabled_until ≤ now
    · simp [h1, h2]
    · simp [h1, h2]
  · simp at h1
    simp [h1]

/-- A usable candidate is returned by the probe: the returned credential is
the one at the probed slot, and its stored state ends up not disabled. -/
theorem tryCandidate_usable (st : KMState) (now index : Nat)
    (hu : usableState (st.key_states (keyAt st index)) now = true) :
    ∃ s1 : KeyState,
      tryCandidate st now index =
        some (keyAt st index,
          { st with
              current_index := (index + 1) % st.keys.length,
              key_states := setKeyState st.key_states (keyAt st index) s1 })
      ∧ s1.disabled = false := by
  unfold tryCandidate
  unfold usableState at hu
  by_cases h1 : (st.key_states (keyAt st index)).disabled = true
  · have h2 : (st.key_states (keyAt st index)).disabled_until ≤ now := by
      rw [h1] at hu
      simpa using hu
    refine ⟨{ st.key_states (keyAt st index) with disabled := false, last_used := now }, ?_, rfl⟩
    simp [h1, h2]
  · simp only [Bool.not_eq_true] at h1
    refine ⟨{ st.key_states (keyAt st index) with last_used := now }, ?_, h1⟩
    simp [h1]

/-- The scan of select_key stops exactly at the first usable candidate. -/
theorem scanKeys_eq_firstUsable (st : KMState) (now : Nat) :
    ∀ (fuel i : Nat),
      scanKeys st now fuel i =
        match firstUsableFrom st now fuel i with
        | none => none
        | some j => tryCandidate st now ((st.current_index + j) % st.keys.length) := by
  intro fuel
  induction fuel with
  | zero => intro i; rfl
  | succ n ih =>
    intro i
    unfold scanKeys firstUsableFrom
    by_cases hu : usableState
        (st.key_states (keyAt st ((st.current_index + i) % st.keys.length))) now = true
    · rw [if_pos hu]
      rcases tryCandidate_usable st now ((st.current_index + i) % st.keys.length) hu
        with ⟨s1, ht, _⟩
      rw [ht]
      exact ht.symm
    · rw [if_neg hu]
      have ht : tryCandidate st now ((st.current_index + i) % st.keys.length) = none := by
        rw [tryCandidate_none_iff]
        simpa using hu
      rw [ht, ih (i + 1)]

/-- Claim C4: when the first usable candidate that select_key examines has
disabled = true with an expired cooldown (now at or past disabled_until),
select_key flips disabled to false before deciding usability: it returns
that credential and leaves its stored state with disabled = false. -/
theorem select_key_lazy_reenable (st : KMState) (now i : Nat) (k : String)
    (hfu : firstUsable st now = some i)
    (hk : k = keyAt st ((st.current_index + i) % st.keys.length))
    (hd : (st.key_states k).disabled = true)
    (he : (st.key_states k).disabled_until ≤ now) :
    (select_key st now).1 = some k ∧
      ((select_key st now).2.key_states k).disabled = false := by
  have hne : st.keys.isEmpty = false := by
    cases hk2 : st.keys with
    | nil =>
      unfold firstUsable at hfu
      rw [hk2] at hfu
      simp [firstUsableFrom] at hfu
    | cons a l => simp [hk2]
  have hu : usableState (st.key_states (keyAt st ((st.current_index + i) % st.keys.length))) now = true := by
    rw [← hk]
    unfold usableState
    simp [he]
  rcases tryCandidate_usable st now ((st.current_index + i) % st.keys.length) hu
    with ⟨s1, ht, hs1⟩
  have hscan : scanKeys st now st.keys.length 0 =
      some (keyAt st ((st.current_index + i) % st.keys.length),
        { st with
            current_index := ((st.current_index + i) % st.keys.length + 1) % st.keys.length,
            key_states := setKeyState st.key_states
              (keyAt st ((st.current_index + i) % st.keys.length)) s1 }) := by
    rw [scanKeys_eq_firstUsable st now st.keys.length 0]
    unfold firstUsable at hfu
    rw [hfu]
    exact ht
  unfold select_key
  rw [hscan]
  simp only [hne, Bool.false_eq_true, if_false]
  constructor
  · rw [hk]
  · rw [hk]
    simp [setKeyState, hs1]

/-- Witness for C4: a two-key pool whose first key is disabled with an
expired cooldown; selection at time 50 returns it re-enabled. -/
theorem select_key_lazy_reenable_witness :
    (select_key
        { keys := ["k1", "k2"], current_index := 0,
          key_states := setKeyState (fun _ => initialKeyState) "k1"
            { disabled := true, disabled_until := 40, error_count := 1,
              last_used := 0, success_count := 0 } } 50).1 = some "k1" ∧
      ((select_key
        { keys := ["k1", "k2"], current_index := 0,
          key_states := setKeyState (fun _ => initialKeyState) "k1"
            { disabled := true, disabled_until := 40, error_count := 1,
              last_used := 0, success_count := 0 } } 50).2.key_states "k1").disabled
        = false :=
  select_key_lazy_reenable _ 50 0 "k1" (by decide) (by decide) (by decide) (by decide)

/-! ## Theorems for C3 (round-robin under all-healthy) -/

/-- With every stored state healthy and the cursor in range, select_key
returns the credential under the cursor and advances the cursor one slot,
only stamping last_used on that credential. -/
theorem select_key_healthy (st : KMState) (now : Nat)
    (hne : st.keys ≠ []) (hci : st.current_index < st.keys.length)
    (hh : ∀ k, (st.key_states k).disabled = false) :
    select_key st now =
      (some (keyAt st st.current_index),
        { st with
            current_index := (st.current_index + 1) % st.keys.length,
            key_states := setKeyState st.key_states (keyAt st st.current_index)
              { st.key_states (keyAt st st.current_index) with last_used := now } }) := by
  have hlen : 0 < st.keys.length := List.length_pos.mpr hne
  have hmod : (st.current_index + 0) % st.keys.length = st.current_index := by
    rw [Nat.add_zero, Nat.mod_eq_of_lt hci]
  have hu : usableState
      (st.key_states (keyAt st ((st.current_index + 0) % st.keys.length))) now = true := by
    unfold usableState
    rw [hh]
    rfl
  have htry : tryCandidate st now ((st.current_index + 0) % st.keys.length) =
      some (keyAt st ((st.current_index + 0) % st.keys.length),
        { st with
            current_index := ((st.current_index + 0) % st.keys.length + 1) % st.keys.length,
            key_states := setKeyState st.key_states
              (keyAt st ((st.current_index + 0) % st.keys.length))
              { st.key_states (keyAt st ((st.current_index + 0) % st.keys.length)) with
                  last_used := now } }) := by
    unfold tryCandidate
    simp [hh]
  rcases Nat.exists_eq_add_of_lt hlen with ⟨m, hm⟩
  have hempty : st.keys.isEmpty = false := by
    cases hk2 : st.keys with
    | nil => exact absurd hk2 hne
    | cons a l => simp
  have hfu : firstUsable st now = some 0 := by
    unfold firstUsable
    rw [show st.keys.length = m + 1 from by omega]
    unfold firstUsableFrom
    rw [if_pos hu]
  have hscan : scanKeys st now st.keys.length 0 =
      tryCandidate st now ((st.current_index + 0) % st.keys.length) := by
    rw [scanKeys_eq_firstUsable st now st.keys.length 0]
    unfold firstUsable at hfu
    rw [hfu]
  unfold select_key
  rw [hempty]
  simp only [Bool.false_eq_true, if_false]
  rw [hscan, htry, hmod]

/-- Iterating select_key from an all-healthy pool: the j-th call returns
the credential at slot (current_index + j) mod N, the cursor after j calls
is (current_index + j) mod N, and the pool stays all-healthy with the same
keys. -/
theorem selectIter_healthy (now : Nat) :
    ∀ (j : Nat) (st : KMState), st.keys ≠ [] →
      st.current_index < st.keys.length →
      (∀ k, (st.key_states k).disabled = false) →
      (selectIter now j st).1 =
          (List.range j).map
            (fun i => some (keyAt st ((st.current_index + i) % st.keys.length)))
        ∧ (selectIter now j st).2.keys = st.keys
        ∧ (selectIter now j st).2.current_index = (st.current_index + j) % st.keys.length
        ∧ ∀ k, ((selectIter now j st).2.key_states k).disabled = false := by
  intro j
  induction j with
  | zero =>
    intro st hne hci hh
    refine ⟨rfl, rfl, ?_, hh⟩
    simpa using (Nat.mod_eq_of_lt hci).symm
  | succ n ih =>
    intro st hne hci hh
    have hstep := select_key_healthy st now hne hci hh
    have hlen : 0 < st.keys.length := List.length_pos.mpr hne
    set st1 : KMState :=
      { st with
          current_index := (st.current_index + 1) % st.keys.length,
          key_states := setKeyState st.key_states (keyAt st st.current_index)
            { st.key_states (keyAt st st.current_index) with last_used := now } }
      with hst1
    have hne1 : st1.keys ≠ [] := hne
    have hci1 : st1.current_index < st1.keys.length := Nat.mod_lt _ hlen
    have hh1 : ∀ k, (st1.key_states k).disabled = false := by
      intro k
      show (setKeyState st.key_states (keyAt st st.current_index)
        { st.key_states (keyAt st st.current_index) with last_used := now } k).disabled = false
      unfold setKeyState
      by_cases hkk : k = keyAt st st.current_index
      · rw [if_pos hkk]
        exact hh _
      · rw [if_neg hkk]
        exact hh _
    rcases ih st1 hne1 hci1 hh1 with ⟨ihres, ihkeys, ihci, ihh⟩
    have hiter : selectIter now (n + 1) st =
        ((select_key st now).1 :: (selectIter now n (select_key st now).2).1,
          (selectIter now n (select_key st now).2).2) := rfl
    rw [hstep] at hiter
    have hmaps : (List.range n).map
          (fun i => some (keyAt st1 ((st1.current_index + i) % st1.keys.length))) =
        (List.range n).map
          (fun i => some (keyAt st ((st.current_index + (i + 1)) % st.keys.length))) := by
      refine List.map_congr_left ?_
      intro i _
      show some (keyAt st1 (((st.current_index + 1) % st.keys.length + i) % st.keys.length))
        = some (keyAt st ((st.current_index + (i + 1)) % st.keys.length))
      have harith : ((st.current_index + 1) % st.keys.length + i) % st.keys.length
          = (st.current_index + (i + 1)) % st.keys.length := by
        rw [Nat.mod_add_mod]
        congr 1
        omega
      rw [harith]
      rfl
    refine ⟨?_, ?_, ?_, ?_⟩
    · rw [hiter]
      show some (keyAt st st.current_index) :: (selectIter now n st1).1 = _
      rw [ihres, hmaps, List.range_succ_eq_map, List.map_cons, List.map_map]
      rw [Nat.add_zero, Nat.mod_eq_of_lt hci]
      rfl
    · rw [hiter]
      exact ihkeys
    · rw [hiter]
      show (selectIter now n st1).2.current_index = _
      rw [ihci]
      show ((st.current_index + 1) % st.keys.length + n) % st.keys.length
        = (st.current_index + (n + 1)) % st.keys.length
      rw [Nat.mod_add_mod]
      congr 1
      omega
    · rw [hiter]
      exact ihh

/-- Counting a credential among the some-wrapped results equals counting it
in the underlying list. -/
theorem count_some_map (l : List String) (k : String) :
    (l.map some).count (some k) = l.count k := by
  induction l with
  | nil => rfl
  | cons a t ih =>
    rw [List.map_cons, List.count_cons, List.count_cons, ih]
    rfl

/-- A member of a duplicate-free list is counted exactly once. -/
theorem count_one_of_nodup (l : List String) (k : String) :
    l.Nodup → k ∈ l → l.count k = 1 := by
  induction l with
  | nil => intro _ hm; cases hm
  | cons a t ih =>
    intro hnd hm
    rw [List.count_cons]
    rcases List.mem_cons.mp hm with h | h
    · subst h
      have hnotin : k ∉ t := (List.nodup_cons.mp hnd).1
      rw [List.count_eq_zero.mpr hnotin]
      simp
    · rw [ih (List.nodup_cons.mp hnd).2 h]
      have hka : ¬ a = k := by
        intro he
        subst he
        exact (List.nodup_cons.mp hnd).1 h
      simp [hka]

/-- Rotating a list does not change how often an element occurs. -/
theorem count_rotate (l : List String) (k : String) (n : Nat) (hn : n ≤ l.length) :
    (l.rotate n).count k = l.count k := by
  rw [List.rotate_eq_drop_append_take hn]
  conv_rhs => rw [← List.take_append_drop n l]
  rw [List.count_append, List.count_append]
  omega

/-- Claim C3: for a pool of N distinct keys none of whose states is
disabled, N consecutive select_key calls (no intervening mutation) return
exactly the rotation of the pool order starting at current_index — hence
each credential exactly once — and after j calls the cursor has advanced
by j modulo N. -/
theorem select_key_round_robin (st : KMState) (now : Nat)
    (hne : st.keys ≠ []) (hnd : st.keys.Nodup)
    (hci : st.current_index < st.keys.length)
    (hh : ∀ k, (st.key_states k).disabled = false) :
    (selectIter now st.keys.length st).1 = (st.keys.rotate st.current_index).map some
    ∧ (∀ k ∈ st.keys, (selectIter now st.keys.length st).1.count (some k) = 1)
    ∧ (∀ j : Nat,
        (selectIter now j st).2.current_index = (st.current_index + j) % st.keys.length) := by
  have hlen : 0 < st.keys.length := List.length_pos.mpr hne
  have hmain : (selectIter now st.keys.length st).1
      = (st.keys.rotate st.current_index).map some := by
    rcases selectIter_healthy now st.keys.length st hne hci hh with ⟨hres, -, -, -⟩
    rw [hres]
    refine List.ext_getElem ?_ ?_
    · simp
    · intro n h1 h2
      have hn : n < st.keys.length := by simpa using h1
      have hrot : n < (st.keys.rotate st.current_index).length := by
        simpa [List.length_rotate] using hn
      rw [List.getElem_map, List.getElem_range, List.getElem_map, List.getElem_rotate]
      have hx : (n + st.current_index) % st.keys.length < st.keys.length :=
        Nat.mod_lt _ hlen
      rw [Nat.add_comm st.current_index n]
      unfold keyAt
      rw [List.getD_eq_getElem st.keys "" hx]
  refine ⟨hmain, ?_, ?_⟩
  · intro k hk
    rw [hmain, count_some_map, count_rotate st.keys k st.current_index (le_of_lt hci)]
    exact count_one_of_nodup st.keys k hnd hk
  · intro j
    exact (selectIter_healthy now j st hne hci hh).2.2.1

/-- A concrete all-healthy three-key pool with the cursor at slot 1, used
by the round-robin witness. -/
def rrPool : KMState :=
  { keys := ["k1", "k2", "k3"], current_index := 1,
    key_states := fun _ => initialKeyState }

/-- Witness for C3: three healthy distinct keys with the cursor at slot 1;
the three selections return k2, k3, k1 and after two calls the cursor is
at slot 0. -/
theorem select_key_round_robin_witness :
    (selectIter 7 3 rrPool).1 = [some "k2", some "k3", some "k1"]
    ∧ (selectIter 7 2 rrPool).2.current_index = 0 := by
  have h := select_key_round_robin rrPool
    7 (by decide) (by decide) (by decide) (fun _ => rfl)
  refine ⟨?_, ?_⟩
  · rw [show (3 : Nat) = rrPool.keys.length from rfl]
    rw [h.1]
    decide
  · rw [h.2.2 2]
    rfl

/-! ## JSON / Python values (params converter data model)

Python numbers (int and float) are both modelled as exact rational
numbers; this matches Python numeric equality (1 == 1.0) and is exact for
every computation a claim depends on.  JSON null and Python None coincide
(request bodies are parsed JSON).  Dictionaries are association lists in
insertion order. -/

inductive JValue where
  | null
  | bool (b : Bool)
  | num (q : ℚ)
  | str (s : String)
  | arr (xs : List JValue)
  | obj (fields : List (String × JValue))

/-- A JSON object / Python dict body. -/
abbrev JObj := List (String × JValue)

/-- Look up a key (first occurrence; real dicts have unique keys). -/
def jLookup : JObj → String → Option JValue
  | [], _ => none
  | (k, v) :: rest, key => if k = key then some v else jLookup rest key

/-- Python d.get(key): absent keys give None, which is JSON null. -/
def jGet (o : JObj) (key : String) : JValue := (jLookup o key).getD .null

/-- Python d.get(key, default). -/
def dictGetD (o : JObj) (key : String) (d : JValue) : JValue :=
  match jLookup o key with
  | some v => v
  | none => d

/-- Python `key in d`. -/
def hasKey (o : JObj) (key : String) : Bool := (jLookup o key).isSome

/-- Python d[key] = v: overwrite in place, else append (insertion order). -/
def objSet : JObj → String → JValue → JObj
  | [], key, v => [(key, v)]
  | (k, w) :: rest, key, v =>
    if k = key then (k, v) :: rest else (k, w) :: objSet rest key v

/-- Python d.pop(key, None): drop the entry if present. -/
def objPop : JObj → String → JObj
  | [], _ => []
  | (k, w) :: rest, key => if k = key then rest else (k, w) :: objPop rest key

/-- Python d.update(patch) for a dict patch: set every entry of the patch
in order. -/
def objUpdate (o : JObj) (patch : JObj) : JObj :=
  patch.foldl (fun acc kv => objSet acc kv.1 kv.2) o

/-- Python truthiness of a value. -/
def pyTruthy : JValue → Bool
  | .null => false
  | .bool b => b
  | .num q => !(q.num = 0 : Bool)
  | .str s => !s.isEmpty
  | .arr xs => !xs.isEmpty
  | .obj fs => !fs.isEmpty

/-- Python `a or b`: the first operand if truthy, else the second. -/
def pyOr (a b : JValue) : JValue := if pyTruthy a then a else b

/-- Python `v is None`. -/
def jIsNull : JValue → Bool
  | .null => true
  | _ => false

/-- Python `v == s` for a string literal s (a string equals only an equal
string). -/
def jIsStr (v : JValue) (s : String) : Bool :=
  match v with
  | .str t => decide (t = s)
  | _ => false

/-- Numeric value of a run of decimal digits. -/
def digitsToNat (l : List Char) : Nat :=
  l.foldl (fun a c => a * 10 + (c.toNat - 48)) 0

/-- Unsigned decimal literal (digits, optionally digits.digits) as an
exact rational. -/
def parseDecCore (s : List Char) : Option ℚ :=
  let ip := s.takeWhile Char.isDigit
  let rest := s.dropWhile Char.isDigit
  match rest with
  | [] => if ip.isEmpty then none else some ((digitsToNat ip : Int) : ℚ)
  | c :: frac =>
    if c = '.' ∧ frac.all Char.isDigit ∧ ¬(ip.isEmpty ∧ frac.isEmpty) then
      some (mkRat (digitsToNat ip * 10 ^ frac.length + digitsToNat frac) (10 ^ frac.length))
    else none

/-- Python float(s) on a string: optional sign and a plain decimal literal
(surrounding whitespace stripped).  Scientific notation and the special
floats are not modelled (they feed no claim); such strings are treated as
unparseable. -/
def pyParseFloat (s : String) : Option ℚ :=
  match pyStrip s.toList with
  | '-' :: rest => (parseDecCore rest).map (fun q => -q)
  | '+' :: rest => parseDecCore rest
  | t => parseDecCore t

/-- Python int(s) on a string: optional sign and digits only (a string
with a fractional part raises). -/
def pyParseInt (s : String) : Option Int :=
  match pyStrip s.toList with
  | '-' :: rest =>
    if !rest.isEmpty ∧ rest.all Char.isDigit then some (-(digitsToNat rest : Int)) else none
  | '+' :: rest =>
    if !rest.isEmpty ∧ rest.all Char.isDigit then some ((digitsToNat rest : Int)) else none
  | t =>
    if !t.isEmpty ∧ t.all Char.isDigit then some ((digitsToNat t : Int)) else none

/-- Python float(v): numbers pass through (exact in this model), booleans
are 1 and 0, strings are parsed, anything else raises. -/
def pyFloat : JValue → Except String ℚ
  | .num q => .ok q
  | .bool b => .ok (if b then 1 else 0)
  | .str s =>
    match pyParseFloat s with
    | some q => .ok q
    | none => .error "could not convert string to float"
  | _ => .error "float() argument must be a string or a number"

/-- Python int(v): numbers truncate toward zero, booleans are 1 and 0,
integer strings parse, anything else raises. -/
def pyInt : JValue → Except String Int
  | .num q => .ok (qTrunc q)
  | .bool b => .ok (if b then 1 else 0)
  | .str s =>
    match pyParseInt s with
    | some i => .ok i
    | none => .error "invalid literal for int()"
  | _ => .error "int() argument must be a string or a number"

/-- Python min(q, 1.0) (used by the anthropic temperature clamp): the
second argument when it is strictly smaller. -/
def qMin (a b : ℚ) : ℚ := if qLt b a then b else a

/-! ## Model registry (params/models.py) -/

inductive ProviderType where
  | anthropic | openai | google | xai | deepseek | qwen | doubao
  | openrouter | ollama | bedrock | unknown
  deriving DecidableEq, Repr

/-- The string value of the provider enum. -/
def ProviderType.value : ProviderType → String
  | .anthropic => "anthropic"
  | .openai => "openai"
  | .google => "google"
  | .xai => "xai"
  | .deepseek => "deepseek"
  | .qwen => "qwen"
  | .doubao => "doubao"
  | .openrouter => "openrouter"
  | .ollama => "ollama"
  | .bedrock => "bedrock"
  | .unknown => "unknown"

structure TokenLimit where
  min_tokens : Nat := 1024
  max_tokens : Nat := 16384
  default_tokens : Nat := 4096
  deriving Repr, DecidableEq

structure ModelCapabilities where
  supports_thinking : Bool := false
  supports_vision : Bool := false
  supports_tools : Bool := true
  supports_streaming : Bool := true
  supports_json_mode : Bool := false
  supports_web_search : Bool := false
  deriving Repr, DecidableEq

structure ModelConfig where
  id : String
  name : String
  provider : ProviderType
  token_limit : TokenLimit := {}
  capabilities : ModelCapabilities := {}
  description : String := ""
  context_window : Nat := 128000
  deriving Repr, DecidableEq

/-- params/models.py SUPPORTED_MODELS, in source (insertion) order. -/
def SUPPORTED_MODELS : List (String × ModelConfig) := [
  ("anthropic/claude-sonnet-4-20250514",
   { id := "anthropic/claude-sonnet-4-20250514", name := "Claude Sonnet 4",
     provider := .anthropic,
     token_limit := { min_tokens := 1024, max_tokens := 16384, default_tokens := 8192 },
     capabilities := { supports_thinking := true, supports_vision := true, supports_tools := true },
     context_window := 200000 }),
  ("anthropic/claude-opus-4-20250514",
   { id := "anthropic/claude-opus-4-20250514", name := "Claude Opus 4",
     provider := .anthropic,
     token_limit := { min_tokens := 1024, max_tokens := 32000, default_tokens := 16384 },
     capabilities := { supports_thinking := true, supports_vision := true, supports_tools := true },
     context_window := 200000 }),
  ("anthropic/claude-3-5-sonnet-20241022",
   { id := "anthropic/claude-3-5-sonnet-20241022", name := "Claude 3.5 Sonnet",
     provider := .anthropic,
     token_limit := { min_tokens := 1024, max_tokens := 8192, default_tokens := 4096 },
     capabilities := { supports_thinking := false, supports_vision := true, supports_tools := true },
     context_window := 200000 }),
  ("anthropic/claude-3-5-haiku-20241022",
   { id := "anthropic/claude-3-5-haiku-20241022", name := "Claude 3.5 Haiku",
     provider := .anthropic,
     token_limit := { min_tokens := 1024, max_tokens := 8192, default_tokens := 4096 },
     capabilities := { supports_thinking := false, supports_vision := true, supports_tools := true },
     context_window := 200000 }),
  ("anthropic/claude-3-opus-20240229",
   { id := "anthropic/claude-3-opus-20240229", name := "Claude 3 Opus",
     provider := .anthropic,
     token_limit := { min_tokens := 1024, max_tokens := 4096, default_tokens := 4096 },
     capabilities := { supports_thinking := false, supports_vision := true, supports_tools := true },
     context_window := 200000 }),
  ("openai/gpt-4o",
   { id := "openai/gpt-4o", name := "GPT-4o", provider := .openai,
     token_limit := { min_tokens := 1024, max_tokens := 16384, default_tokens := 4096 },
     capabilities := { supports_thinking := false, supports_vision := true,
                       supports_tools := true, supports_json_mode := true },
     context_window := 128000 }),
  ("openai/gpt-4o-mini",
   { id := "openai/gpt-4o-mini", name := "GPT-4o Mini", provider := .openai,
     token_limit := { min_tokens := 1024, max_tokens := 16384, default_tokens := 4096 },
     capabilities := { supports_thinking := false, supports_vision := true,
                       supports_tools := true, supports_json_mode := true },
     context_window := 128000 }),
  ("openai/o1",
   { id := "openai/o1", name := "o1", provider := .openai,
     token_limit := { min_tokens := 1024, max_tokens := 100000, default_tokens := 32768 },
     capabilities := { supports_thinking := true, supports_vision := true, supports_tools := true },
     context_window := 200000 }),
  ("openai/o1-mini",
   { id := "openai/o1-mini", name := "o1 Mini", provider := .openai,
     token_limit := { min_tokens := 1024, max_tokens := 65536, default_tokens := 16384 },
     capabilities := { supports_thinking := true, supports_vision := false, supports_tools := true },
     context_window := 128000 }),
  ("openai/o1-pro",
   { id := "openai/o1-pro", name := "o1 Pro", provider := .openai,
     token_limit := { min_tokens := 1024, max_tokens := 100000, default_tokens := 32768 },
     capabilities := { supports_thinking := true, supports_vision := true, supports_tools := true },
     context_window := 200000 }),
  ("openai/o3",
   { id := "openai/o3", name := "o3", provider := .openai,
     token_limit := { min_tokens := 1024, max_tokens := 100000, default_tokens := 32768 },
     capabilities := { supports_thinking := true, supports_vision := true, supports_tools := true },
     context_window := 200000 }),
  ("openai/o3-mini",
   { id := "openai/o3-mini", name := "o3 Mini", provider := .openai,
     token_limit := { min_tokens := 1024, max_tokens := 65536, default_tokens := 16384 },
     capabilities := { supports_thinking := true, supports_vision := false, supports_tools := true },
     context_window := 128000 }),
  ("openai/o4-mini",
   { id := "openai/o4-mini", name := "o4 Mini", provider := .openai,
     token_limit := { min_tokens := 1024, max_tokens := 100000, default_tokens := 32768 },
     capabilities := { supports_thinking := true, supports_vision := true, supports_tools := true },
     context_window := 200000 }),
  ("openai/gpt-4-turbo",
   { id := "openai/gpt-4-turbo", name := "GPT-4 Turbo", provider := .openai,
     token_limit := { min_tokens := 1024, max_tokens := 4096, default_tokens := 4096 },
     capabilities := { supports_thinking := false, supports_vision := true,
                       supports_tools := true, supports_json_mode := true },
     context_window := 128000 }),
  ("google/gemini-2.5-pro-preview-06-05",
   { id := "google/gemini-2.5-pro-preview-06-05", name := "Gemini 2.5 Pro",
     provider := .google,
     token_limit := { min_tokens := 1024, max_tokens := 65536, default_tokens := 8192 },
     capabilities := { supports_thinking := true, supports_vision := true, supports_tools := true,
                       supports_json_mode := true, supports_web_search := true },
     context_window := 1000000 }),
  ("google/gemini-2.5-flash-preview-05-20",
   { id := "google/gemini-2.5-flash-preview-05-20", name := "Gemini 2.5 Flash",
     provider := .google,
     token_limit := { min_tokens := 1024, max_tokens := 65536, default_tokens := 8192 },
     capabilities := { supports_thinking := true, supports_vision := true, supports_tools := true,
                       supports_json_mode := true, supports_web_search := true },
     context_window := 1000000 }),
  ("google/gemini-2.0-flash",
   { id := "google/gemini-2.0-flash", name := "Gemini 2.0 Flash", provider := .google,
     token_limit := { min_tokens := 1024, max_tokens := 8192, default_tokens := 4096 },
     capabilities := { supports_thinking := false, supports_vision := true, supports_tools := true,
                       supports_json_mode := true },
     context_window := 1000000 }),
  ("google/gemini-1.5-pro",
   { id := "google/gemini-1.5-pro", name := "Gemini 1.5 Pro", provider := .google,
     token_limit := { min_tokens := 1024, max_tokens := 8192, default_tokens := 4096 },
     capabilities := { supports_thinking := false, supports_vision := true, supports_tools := true,
                       supports_json_mode := true },
     context_window := 2000000 }),
  ("xai/grok-3",
   { id := "xai/grok-3", name := "Grok 3", provider := .xai,
     token_limit := { min_tokens := 1024, max_tokens := 16384, default_tokens := 4096 },
     capabilities := { supports_thinking := true, supports_vision := false, supports_tools := true },
     context_window := 131072 }),
  ("xai/grok-3-mini",
   { id := "xai/grok-3-mini", name := "Grok 3 Mini", provider := .xai,
     token_limit := { min_tokens := 1024, max_tokens := 16384, default_tokens := 4096 },
     capabilities := { supports_thinking := true, supports_vision := false, supports_tools := true },
     context_window := 131072 }),
  ("xai/grok-2",
   { id := "xai/grok-2", name := "Grok 2", provider := .xai,
     token_limit := { min_tokens := 1024, max_tokens := 8192, default_tokens := 4096 },
     capabilities := { supports_thinking := false, supports_vision := false, supports_tools := true },
     context_window := 131072 }),
  ("deepseek/deepseek-r1",
   { id := "deepseek/deepseek-r1", name := "DeepSeek R1", provider := .deepseek,
     token_limit := { min_tokens := 1024, max_tokens := 65536, default_tokens := 8192 },
     capabilities := { supports_thinking := true, supports_vision := false, supports_tools := true },
     context_window := 128000 }),
  ("deepseek/deepseek-chat",
   { id := "deepseek/deepseek-chat", name := "DeepSeek Chat", provider := .deepseek,
     token_limit := { min_tokens := 1024, max_tokens := 8192, default_tokens := 4096 },
     capabilities := { supports_thinking := false, supports_vision := false, supports_tools := true },
     context_window := 128000 })]

/-- params/models.py MODEL_ALIASES, in source order. -/
def MODEL_ALIASES : List (String × String) := [
  ("claude-sonnet-4", "anthropic/claude-sonnet-4-20250514"),
  ("claude-4-sonnet", "anthropic/claude-sonnet-4-20250514"),
  ("claude-opus-4", "anthropic/claude-opus-4-20250514"),
  ("claude-4-opus", "anthropic/claude-opus-4-20250514"),
  ("claude-3.5-sonnet", "anthropic/claude-3-5-sonnet-20241022"),
  ("claude-3-5-sonnet", "anthropic/claude-3-5-sonnet-20241022"),
  ("claude-3.5-haiku", "anthropic/claude-3-5-haiku-20241022"),
  ("claude-3-5-haiku", "anthropic/claude-3-5-haiku-20241022"),
  ("claude-3-opus", "anthropic/claude-3-opus-20240229"),
  ("gpt-4o", "openai/gpt-4o"),
  ("gpt-4o-mini", "openai/gpt-4o-mini"),
  ("o1", "openai/o1"),
  ("o1-mini", "openai/o1-mini"),
  ("o1-pro", "openai/o1-pro"),
  ("o3", "openai/o3"),
  ("o3-mini", "openai/o3-mini"),
  ("o4-mini", "openai/o4-mini"),
  ("gemini-2.5-pro", "google/gemini-2.5-pro-preview-06-05"),
  ("gemini-2.5-flash", "google/gemini-2.5-flash-preview-05-20"),
  ("gemini-2.0-flash", "google/gemini-2.0-flash"),
  ("gemini-1.5-pro", "google/gemini-1.5-pro"),
  ("grok-3", "xai/grok-3"),
  ("grok-3-mini", "xai/grok-3-mini"),
  ("grok-2", "xai/grok-2"),
  ("deepseek-r1", "deepseek/deepseek-r1"),
  ("deepseek-chat", "deepseek/deepseek-chat")]

/-- Dict lookup in SUPPORTED_MODELS. -/
def modelLookup (model_id : String) : Option ModelConfig :=
  (SUPPORTED_MODELS.find? (fun p => decide (p.1 = model_id))).map (fun p => p.2)

/-- Dict lookup in MODEL_ALIASES. -/
def aliasLookup (model_id : String) : Option String :=
  (MODEL_ALIASES.find? (fun p => decide (p.1 = model_id))).map (fun p => p.2)

/-- Prefix test on character lists. -/
def startsWithL (pat s : List Char) : Bool := pat.isPrefixOf s

/-- Suffix test on character lists. -/
def endsWithL (pat s : List Char) : Bool := pat.isSuffixOf s

/-- params/models.py get_model_info: direct match, then alias match, then
the first fuzzy match (suffix /id or containment), else none. -/
def get_model_info (model_id : String) : Option ModelConfig :=
  match modelLookup model_id with
  | some c => some c
  | none =>
    match aliasLookup model_id with
    | some t => modelLookup t
    | none =>
      (SUPPORTED_MODELS.find? (fun p =>
        endsWithL ("/" ++ model_id).toList p.1.toList
          || containsSub model_id.toList p.1.toList)).map (fun p => p.2)

/-- params/models.py detect_provider: prefix and substring family checks
on the lower-cased id, in source order. -/
def detect_provider (model_id : String) : ProviderType :=
  let ml := lowerChars model_id.toList
  if startsWithL "anthropic/".toList ml || containsSub "claude".toList ml then .anthropic
  else if startsWithL "openai/".toList ml || startsWithL "gpt".toList ml
      || startsWithL "o1".toList ml || startsWithL "o3".toList ml
      || startsWithL "o4".toList ml then .openai
  else if startsWithL "google/".toList ml || containsSub "gemini".toList ml then .google
  else if startsWithL "xai/".toList ml || containsSub "grok".toList ml then .xai
  else if startsWithL "deepseek/".toList ml || containsSub "deepseek".toList ml then .deepseek
  else if startsWithL "qwen/".toList ml || containsSub "qwen".toList ml
      || containsSub "qwq".toList ml then .qwen
  else if startsWithL "doubao/".toList ml || containsSub "doubao".toList ml then .doubao
  else if startsWithL "openrouter/".toList ml then .openrouter
  else .unknown

/-- params/converter.py ParamsConverter.normalize_model_id: alias, exact,
provider-prefix completion, fuzzy containment / suffix scan, then the
bare-prefix heuristics, else unchanged. -/
def normalize_model_id (model_id : String) : String :=
  if model_id = "" then model_id
  else
    match aliasLookup model_id with
    | some t => t
    | none =>
      if (modelLookup model_id).isSome then model_id
      else
        let provider := detect_provider model_id
        let hasSlash := containsSub "/".toList model_id.toList
        let step3 : Option String :=
          if provider ≠ .unknown ∧ hasSlash = false then
            let full := provider.value ++ "/" ++ model_id
            if (modelLookup full).isSome then some full else none
          else none
        match step3 with
        | some f => f
        | none =>
          match SUPPORTED_MODELS.find? (fun p =>
              containsSub model_id.toList p.1.toList
                || endsWithL ("/" ++ model_id).toList p.1.toList) with
          | some p => p.1
          | none =>
            if hasSlash = false then
              if startsWithL "claude".toList model_id.toList then "anthropic/" ++ model_id
              else if startsWithL "gpt".toList model_id.toList
                  || startsWithL "o1".toList model_id.toList
                  || startsWithL "o3".toList model_id.toList
                  || startsWithL "o4".toList model_id.toList then "openai/" ++ model_id
              else if startsWithL "gemini".toList model_id.toList then "google/" ++ model_id
              else if startsWithL "grok".toList model_id.toList then "xai/" ++ model_id
              else if startsWithL "deepseek".toList model_id.toList then "deepseek/" ++ model_id
              else model_id
            else model_id

/-! ## Reasoning translation (params/reasoning.py) -/

/-- params/reasoning.py ReasoningParams.  The Python code stores raw
request values in these fields, so they are modelled as JValue; the
defaults are enabled=False, effort="medium", budget_tokens=None,
include_thoughts=True. -/
structure ReasoningParams where
  enabled : JValue := .bool false
  effort : JValue := .str "medium"
  budget_tokens : JValue := .null
  include_thoughts : JValue := .bool true

/-- params/reasoning.py EFFORT_RATIO.get(effort, 0.5): the effort-level
fraction, 0.5 for unknown efforts.  Dict lookup with an unhashable key
(list or dict) raises. -/
def effortFraction : JValue → Except String ℚ
  | .arr _ => .error "unhashable type in dict lookup"
  | .obj _ => .error "unhashable type in dict lookup"
  | .str s =>
    .ok (if s = "minimal" then mkRat 1 10
      else if s = "low" then mkRat 1 4
      else if s = "medium" then mkRat 1 2
      else if s = "high" then mkRat 3 4
      else if s = "xhigh" then 1
      else if s = "auto" then mkRat 1 2
      else mkRat 1 2)
  | _ => .ok (mkRat 1 2)

/-- params/reasoning.py calculate_budget_tokens: budget =
int((max_tokens - min_tokens) * ratio + min_tokens) with a floor of 1024,
scaled down by an optional output cap. -/
def calculate_budget_tokens (effort : JValue) (min_tokens max_tokens : Int)
    (output_max_tokens : Option Int) : Except String Int := do
  let ratio ← effortFraction effort
  let budget := qTrunc (qAdd (qMul (qSub (max_tokens : ℚ) (min_tokens : ℚ)) ratio)
    (min_tokens : ℚ))
  let budget := if budget < 1024 then 1024 else budget
  match output_max_tokens with
  | some om =>
    if om ≠ 0 then
      let capped := qTrunc (qMul (om : ℚ) ratio)
      let budget := if capped < budget then capped else budget
      pure (if budget < 1024 then 1024 else budget)
    else pure budget
  | none => pure budget

/-- The token limits a reasoning handler reads for a model, with the
fallback used when the model is unknown. -/
def modelTokenRange (model_id : String) (dmin dmax : Int) : Int × Int :=
  match get_model_info model_id with
  | some mi => ((mi.token_limit.min_tokens : Int), (mi.token_limit.max_tokens : Int))
  | none => (dmin, dmax)

/-- params/reasoning.py get_anthropic_reasoning_params. -/
def get_anthropic_reasoning_params (r : ReasoningParams) (model_id : String) :
    Except String JObj := do
  if pyTruthy r.enabled = false then pure [] else
  let (mn, mx) := modelTokenRange model_id 1024 16384
  let budget ←
    if pyTruthy r.budget_tokens then pure r.budget_tokens
    else do
      let b ← calculate_budget_tokens r.effort mn mx none
      pure (JValue.num (b : ℚ))
  pure [("thinking", .obj [("type", .str "enabled"), ("budget_tokens", budget)])]

/-- The effort map shared verbatim by the openai and openrouter handlers
(minimal maps to low, xhigh to high, auto and unknown efforts to medium);
a dict lookup with an unhashable key raises. -/
def effortLevelMapped : JValue → Except String String
  | .arr _ => .error "unhashable type in dict lookup"
  | .obj _ => .error "unhashable type in dict lookup"
  | .str s =>
    .ok (if s = "minimal" then "low"
      else if s = "low" then "low"
      else if s = "medium" then "medium"
      else if s = "high" then "high"
      else if s = "xhigh" then "high"
      else if s = "auto" then "medium"
      else "medium")
  | _ => .ok "medium"

/-- params/reasoning.py get_openai_reasoning_params. -/
def get_openai_reasoning_params (r : ReasoningParams) (_model_id : String) :
    Except String JObj := do
  if pyTruthy r.enabled = false then pure [] else
  let effort ← effortLevelMapped r.effort
  let res : JObj := [("reasoningEffort", .str effort)]
  if pyTruthy r.include_thoughts then
    pure (res ++ [("reasoningSummary", .str "auto")])
  else pure res

/-- params/reasoning.py get_gemini_reasoning_params. -/
def get_gemini_reasoning_params (r : ReasoningParams) (model_id : String) :
    Except String JObj := do
  if pyTruthy r.enabled = false then pure [] else
  let (mn, mx) := modelTokenRange model_id 1024 65536
  let budget ←
    if pyTruthy r.budget_tokens then pure r.budget_tokens
    else do
      let b ← calculate_budget_tokens r.effort mn mx none
      pure (JValue.num (b : ℚ))
  let tb := if jIsStr r.effort "auto" then JValue.num (-1 : ℚ) else budget
  pure [("thinkingConfig",
    .obj [("thinkingBudget", tb), ("includeThoughts", r.include_thoughts)])]

/-- params/reasoning.py get_xai_reasoning_params. -/
def get_xai_reasoning_params (r : ReasoningParams) (_model_id : String) :
    Except String JObj := do
  if pyTruthy r.enabled = false then pure [] else
  let effort := if jIsStr r.effort "high" || jIsStr r.effort "xhigh" then "high" else "low"
  pure [("reasoningEffort", .str effort)]

/-- params/reasoning.py get_deepseek_reasoning_params. -/
def get_deepseek_reasoning_params (r : ReasoningParams) (model_id : String) :
    Except String JObj := do
  if pyTruthy r.enabled = false then pure [] else
  if containsSub "r1".toList (lowerChars model_id.toList) then
    pure [("thinking", .obj [("type", .str "enabled")])]
  else
    let res : JObj := [("enable_thinking", .bool true)]
    if pyTruthy r.budget_tokens then
      pure (res ++ [("thinking_budget", r.budget_tokens)])
    else pure res

/-- params/reasoning.py get_qwen_reasoning_params. -/
def get_qwen_reasoning_params (r : ReasoningParams) (_model_id : String) :
    Except String JObj := do
  if pyTruthy r.enabled = false then pure [] else
  let res : JObj := [("enable_thinking", .bool true)]
  if pyTruthy r.budget_tokens then
    pure (res ++ [("thinking_budget", r.budget_tokens)])
  else do
    let b ← calculate_budget_tokens r.effort 1024 32768 none
    pure (res ++ [("thinking_budget", .num (b : ℚ))])

/-- params/reasoning.py get_openrouter_reasoning_params. -/
def get_openrouter_reasoning_params (r : ReasoningParams) (_model_id : String) :
    Except String JObj := do
  if pyTruthy r.enabled = false then pure [] else
  let effort ← effortLevelMapped r.effort
  pure [("reasoning", .obj [("effort", .str effort)])]

/-- params/reasoning.py get_reasoning_params: dispatch on the provider,
defaulting to the openai shape. -/
def get_reasoning_params (provider : ProviderType) (r : ReasoningParams)
    (model_id : String) : Except String JObj := do
  if pyTruthy r.enabled = false then pure [] else
  match provider with
  | .anthropic => get_anthropic_reasoning_params r model_id
  | .openai => get_openai_reasoning_params r model_id
  | .google => get_gemini_reasoning_params r model_id
  | .xai => get_xai_reasoning_params r model_id
  | .deepseek => get_deepseek_reasoning_params r model_id
  | .qwen => get_qwen_reasoning_params r model_id
  | .openrouter => get_openrouter_reasoning_params r model_id
  | _ => get_openai_reasoning_params r model_id

/-- One providerOptions sub-object probe of parse_reasoning_from_request:
Python evaluates `probe in opts`, which succeeds on dicts, strings and
lists and raises otherwise; indexing a matching string or list raises. -/
inductive SubOptProbe where
  | absent
  | found (fields : JObj)
  | raised (msg : String)

/-- Membership plus indexing semantics for one providerOptions entry. -/
def probeSubOpts (v : JValue) (probe : String) : SubOptProbe :=
  match v with
  | .obj fs => if hasKey fs probe then .found fs else .absent
  | .str s => if containsSub probe.toList s.toList then
      .raised "string indices must be integers" else .absent
  | .arr xs => if xs.any (fun e => jIsStr e probe) then
      .raised "list indices must be integers" else .absent
  | _ => .raised "argument of type is not iterable"

/-- params/reasoning.py parse_reasoning_from_request: read the reasoning
intent out of providerOptions.anthropic / openai / google and the
top-level reasoning_effort, enable_thinking, thinking and thinking_budget
keys, in source order (later reads overwrite earlier ones). -/
def parse_reasoning_from_request (body : JObj) (_model_id : String) :
    Except String ReasoningParams := do
  let r : ReasoningParams := {}
  let po ← match jLookup body "providerOptions" with
    | none => pure ([] : JObj)
    | some (.obj fs) => pure fs
    | some _ => .error "providerOptions has no attribute get"
  -- anthropic block
  let r ← match probeSubOpts (dictGetD po "anthropic" (.obj [])) "thinking" with
    | .raised m => .error m
    | .absent => pure r
    | .found fs =>
      match jGet fs "thinking" with
      | .obj tf => pure { r with
          enabled := .bool (jIsStr (jGet tf "type") "enabled"),
          budget_tokens := pyOr (jGet tf "budget_tokens") (jGet tf "budgetTokens") }
      | _ => pure r
  -- openai block
  let r ← match probeSubOpts (dictGetD po "openai" (.obj [])) "reasoningEffort" with
    | .raised m => .error m
    | .absent => pure r
    | .found fs => pure { r with enabled := .bool true, effort := jGet fs "reasoningEffort" }
  -- google block
  let r ← match probeSubOpts (dictGetD po "google" (.obj [])) "thinkingConfig" with
    | .raised m => .error m
    | .absent => pure r
    | .found fs =>
      match jGet fs "thinkingConfig" with
      | .obj tcf => pure { r with
          enabled := .bool true,
          budget_tokens := jGet tcf "thinkingBudget",
          include_thoughts := dictGetD tcf "includeThoughts" (.bool true) }
      | _ => .error "thinkingConfig has no attribute get"
  -- top-level keys
  let r := if hasKey body "reasoning_effort" then
      { r with enabled := .bool true, effort := jGet body "reasoning_effort" }
    else r
  let r := if hasKey body "enable_thinking" then
      { r with enabled := jGet body "enable_thinking" }
    else r
  let r := if hasKey body "thinking" then
      match jGet body "thinking" with
      | .obj tf =>
        { r with
            enabled := if jIsStr (jGet tf "type") "enabled" then .bool true
              else dictGetD tf "enabled" (.bool false),
            budget_tokens := pyOr (jGet tf "budget_tokens") (jGet tf "budgetTokens") }
      | .bool b => { r with enabled := .bool b }
      | _ => r
    else r
  let r := if hasKey body "thinking_budget" then
      { r with budget_tokens := jGet body "thinking_budget" }
    else r
  pure r

/-! ## Request normalizer (params/converter.py, class ParamsConverter) -/

/-- params/converter.py provider_key_map of extract_provider_options. -/
def providerKeyMap : ProviderType → List String
  | .anthropic => ["anthropic", "claude"]
  | .openai => ["openai", "azure"]
  | .google => ["google", "gemini"]
  | .xai => ["xai", "grok"]
  | .deepseek => ["deepseek"]
  | .qwen => ["qwen", "alibaba"]
  | .doubao => ["doubao", "bytedance"]
  | .openrouter => ["openrouter"]
  | .bedrock => ["bedrock", "aws"]
  | _ => []

/-- params/converter.py ParamsConverter.extract_provider_options: the
value under the first matching provider key of providerOptions, else an
empty dict.  A non-dict providerOptions value makes the converter raise
(here at the membership test; in the source, at the latest inside
parse_reasoning_from_request, with the same observable outcome). -/
def extract_provider_options (body : JObj) (provider : ProviderType) :
    Except String JValue :=
  match jLookup body "providerOptions" with
  | none => .ok (.obj [])
  | some (.obj po) =>
    match (providerKeyMap provider).find? (fun k => hasKey po k) with
    | some k => .ok (jGet po k)
    | none => .ok (.obj [])
  | some _ => .error "providerOptions is not a dict"

/-- params/converter.py ParamsConverter.convert_temperature: pass the
temperature through float(), clamping to at most 1.0 for anthropic. -/
def convert_temperature (body : JObj) (provider : ProviderType) :
    Except String (Option ℚ) :=
  match jLookup body "temperature" with
  | none => .ok none
  | some .null => .ok none
  | some v => do
    let q ← pyFloat v
    if provider = .anthropic then pure (some (qMin q 1)) else pure (some q)

/-- params/converter.py ParamsConverter.convert_max_tokens: the first
truthy value of max_tokens / maxTokens / max_output_tokens /
maxOutputTokens (Python `or` chain) passed through int(); when the chain
yields None, the default_tokens of the model, or nothing for an unknown
model. -/
def convert_max_tokens (body : JObj) (model_id : String) :
    Except String (Option Int) :=
  let mt := pyOr (pyOr (pyOr (jGet body "max_tokens") (jGet body "maxTokens"))
    (jGet body "max_output_tokens")) (jGet body "maxOutputTokens")
  match mt with
  | .null =>
    match get_model_info model_id with
    | some mi => .ok (some (mi.token_limit.default_tokens : Int))
    | none => .ok none
  | v => do
    let i ← pyInt v
    pure (some i)

/-- params/converter.py ParamsConverter.convert_standard_params: the
scalar passthroughs top_p, top_k, frequency_penalty, presence_penalty,
stop (scalar wrapped into a singleton list) and seed, with camelCase
aliases accepted through `or` chains. -/
def convert_standard_params (body : JObj) : Except String JObj := do
  let res : JObj := []
  let tp := pyOr (jGet body "top_p") (jGet body "topP")
  let res ← if jIsNull tp then pure res else do
    let f ← pyFloat tp
    pure (objSet res "top_p" (.num f))
  let tk := pyOr (jGet body "top_k") (jGet body "topK")
  let res ← if jIsNull tk then pure res else do
    let i ← pyInt tk
    pure (objSet res "top_k" (.num (i : ℚ)))
  let fp := pyOr (jGet body "frequency_penalty") (jGet body "frequencyPenalty")
  let res ← if jIsNull fp then pure res else do
    let f ← pyFloat fp
    pure (objSet res "frequency_penalty" (.num f))
  let pp := pyOr (jGet body "presence_penalty") (jGet body "presencePenalty")
  let res ← if jIsNull pp then pure res else do
    let f ← pyFloat pp
    pure (objSet res "presence_penalty" (.num f))
  let stp := pyOr (jGet body "stop") (jGet body "stopSequences")
  let res := if jIsNull stp then res else
    objSet res "stop" (match stp with
      | .arr xs => .arr xs
      | v => .arr [v])
  let sd := jGet body "seed"
  let res ← if jIsNull sd then pure res else do
    let i ← pyInt sd
    pure (objSet res "seed" (.num (i : ℚ)))
  pure res

/-- Python str(v).lower() in ("true", "1", "yes"), the boolean coercion of
convert_custom_parameters.  Modelling note: int and float renderings are
collapsed by the rational number model; the numeric case uses the integer
rendering, so exactly the number one passes the check. -/
def pyBoolStrCheck : JValue → Bool
  | .str s =>
    let ls := String.mk (lowerChars s.toList)
    decide (ls = "true") || decide (ls = "1") || decide (ls = "yes")
  | .bool b => b
  | .num q => decide (q = 1)
  | _ => false

/-- Python json.loads for the json-typed custom parameters.  Modelling
note: only the scalar literals true / false / null and optionally signed
integers are parsed; any other document is treated as unparseable, in
which case the source keeps the original string. -/
def pyJsonLoads (s : String) : Option JValue :=
  let t := pyStrip s.toList
  if t = "true".toList then some (.bool true)
  else if t = "false".toList then some (.bool false)
  else if t = "null".toList then some .null
  else
    match t with
    | '-' :: rest =>
      if !rest.isEmpty ∧ rest.all Char.isDigit then
        some (.num ((-(digitsToNat rest : Int) : Int) : ℚ))
      else none
    | _ =>
      if !t.isEmpty ∧ t.all Char.isDigit then
        some (.num ((digitsToNat t : Int) : ℚ))
      else none

/-- The per-entry loop of convert_custom_parameters. -/
def customParamsLoop : List JValue → JObj → Except String JObj
  | [], acc => pure acc
  | p :: rest, acc =>
    match p with
    | .obj pf =>
      match dictGetD pf "name" (.str "") with
      | .str ns =>
        let name := String.mk (pyStrip ns.toList)
        if name = "" then customParamsLoop rest acc
        else
          let value := jGet pf "value"
          let ptype := dictGetD pf "type" (.str "string")
          if jIsStr ptype "json" then
            match value with
            | .str vs =>
              if vs = "undefined" then customParamsLoop rest acc
              else
                match pyJsonLoads vs with
                | some v2 => customParamsLoop rest (objSet acc name v2)
                | none => customParamsLoop rest (objSet acc name value)
            | _ => customParamsLoop rest (objSet acc name value)
          else if jIsStr ptype "number" then
            match pyFloat value with
            | .ok q => customParamsLoop rest (objSet acc name (.num q))
            | .error _ => customParamsLoop rest (objSet acc name value)
          else if jIsStr ptype "boolean" then
            customParamsLoop rest (objSet acc name (.bool (pyBoolStrCheck value)))
          else customParamsLoop rest (objSet acc name value)
      | _ => .error "name has no attribute strip"
    | _ => .error "param has no attribute get"

/-- params/converter.py ParamsConverter.convert_custom_parameters: flatten
the customParameters array of name/value/type entries into a dict, with
per-type coercion; anonymous entries are dropped. -/
def convert_custom_parameters (body : JObj) : Except String JObj :=
  match jLookup body "customParameters" with
  | none => pure []
  | some (.arr params) => customParamsLoop params []
  | some (.obj []) => pure []
  | some (.str "") => pure []
  | some (.obj _) => .error "iterating a dict yields plain keys"
  | some (.str _) => .error "iterating a string yields characters"
  | some _ => .error "customParameters is not iterable"

/-- params/converter.py ParamsConverter.build_provider_options: existing
provider options updated with the translated reasoning parameters. -/
def build_provider_options (body : JObj) (model_id : String)
    (provider : ProviderType) : Except String JObj := do
  let existing ← extract_provider_options body provider
  let base ← match existing with
    | .obj fs => pure (objUpdate [] fs)
    | _ => .error "dict.update argument is not a mapping"
  let r ← parse_reasoning_from_request body model_id
  let rp ← get_reasoning_params provider r model_id
  if rp.isEmpty then pure base else pure (objUpdate base rp)

/-- params/converter.py ParamsConverter.convert with
preserve_original=true starts from a deep copy of the body; the model id
must be a string (any other value makes the source raise in
detect_provider or at the alias lookup). -/
def convert (body : JObj) (preserve_original : Bool) :
    Except String (JObj × ProviderType) := do
  let result0 := if preserve_original then body else []
  let model_id ← match dictGetD body "model" (.str "") with
    | .str s => pure s
    | _ => .error "model id is not a string"
  let normalized := normalize_model_id model_id
  let result1 := objSet result0 "model" (.str normalized)
  let provider := detect_provider normalized
  let result2 := objSet result1 "messages" (dictGetD body "messages" (.arr []))
  let result3 := objSet result2 "stream" (dictGetD body "stream" (.bool false))
  let tempO ← convert_temperature body provider
  let result4 := match tempO with
    | some q => objSet result3 "temperature" (.num q)
    | none => result3
  let mtO ← convert_max_tokens body normalized
  let result5 := match mtO with
    | some i => objSet result4 "max_tokens" (.num (i : ℚ))
    | none => result4
  let std ← convert_standard_params body
  let result6 := objUpdate result5 std
  let popts ← build_provider_options body normalized provider
  let result7 ←
    if popts.isEmpty then pure result6
    else
      match jLookup result6 "providerOptions" with
      | none => pure (objSet result6 "providerOptions"
          (.obj [(provider.value, .obj popts)]))
      | some (.obj po) =>
        if hasKey po provider.value then pure result6
        else pure (objSet result6 "providerOptions"
          (.obj (objSet po provider.value (.obj popts))))
      | some (.str s) =>
        if containsSub provider.value.toList s.toList then pure result6
        else .error "item assignment on a string providerOptions"
      | some (.arr xs) =>
        if xs.any (fun e => jIsStr e provider.value) then pure result6
        else .error "item assignment on a list providerOptions"
      | some _ => .error "membership test on providerOptions"
  let custom ← convert_custom_parameters body
  let result8 := if custom.isEmpty then result7 else objUpdate result7 custom
  let result9 := objPop result8 "customParameters"
  pure (result9, provider)

/-- params/converter.py ParamsConverter.convert_for_vercel_gateway:
convert with preserve_original=True, then a read-only pass over the
providerOptions of the result (the source only reads and passes; the only
effect it can have is to raise on a membership test against a
non-container value). -/
def convert_for_vercel_gateway (body : JObj) : Except String JObj := do
  let (converted, provider) ← convert body true
  match dictGetD converted "providerOptions" (.obj []) with
  | .obj pofs =>
    if hasKey pofs provider.value then
      let opts := jGet pofs provider.value
      let check1 ←
        if provider = .anthropic then
          match opts with
          | .obj _ => pure ()
          | .str _ => pure ()
          | .arr _ => pure ()
          | _ => .error "membership test on provider opts"
        else pure ()
      let _ := check1
      let check2 ←
        if provider = .openai then
          match opts with
          | .obj _ => pure ()
          | .str _ => pure ()
          | .arr _ => pure ()
          | _ => .error "membership test on provider opts"
        else pure ()
      let _ := check2
      pure converted
    else pure converted
  | .str s =>
    if containsSub provider.value.toList s.toList then
      .error "string indices must be integers"
    else pure converted
  | .arr xs =>
    if xs.any (fun e => jIsStr e provider.value) then
      .error "list indices must be integers"
    else pure converted
  | _ => .error "membership test on providerOptions"

/-! ## Bridges between the executable rational helpers and the standard
operations (used to state claims in ordinary arithmetic). -/

/-- qAdd is rational addition. -/
theorem qAdd_eq (a b : ℚ) : qAdd a b = a + b := by
  unfold qAdd
  rw [Rat.mkRat_eq_div]
  conv_rhs => rw [← Rat.num_div_den a, ← Rat.num_div_den b]
  rw [div_add_div _ _ (by positivity) (by positivity)]
  push_cast
  ring_nf

/-- qSub is rational subtraction. -/
theorem qSub_eq (a b : ℚ) : qSub a b = a - b := by
  unfold qSub
  rw [Rat.mkRat_eq_div]
  conv_rhs => rw [← Rat.num_div_den a, ← Rat.num_div_den b]
  rw [div_sub_div _ _ (by positivity) (by positivity)]
  push_cast
  ring_nf

/-- qMul is rational multiplication. -/
theorem qMul_eq (a b : ℚ) : qMul a b = a * b := by
  unfold qMul
  rw [Rat.mkRat_eq_div]
  conv_rhs => rw [← Rat.num_div_den a, ← Rat.num_div_den b]
  rw [div_mul_div_comm]
  push_cast
  ring_nf

/-- On nonnegative rationals, truncation toward zero is the floor. -/
theorem qTrunc_eq_floor (q : ℚ) (h : 0 ≤ q) : qTrunc q = ⌊q⌋ := by
  unfold qTrunc
  rw [Rat.floor_def]
  exact Int.tdiv_eq_ediv (Rat.num_nonneg.mpr h) (Int.natCast_nonneg _)

/-! ## Key-set lemmas for association-list objects -/

/-- A body has well-formed (duplicate-free) keys, as every JSON object /
Python dict does. -/
def nodupKeys (o : JObj) : Prop := (o.map Prod.fst).Nodup

/-- Membership characterization of hasKey. -/
theorem hasKey_iff_mem (o : JObj) (k : String) :
    hasKey o k = true ↔ k ∈ o.map Prod.fst := by
  induction o with
  | nil => simp [hasKey, jLookup]
  | cons kv rest ih =>
    rcases kv with ⟨k1, v1⟩
    by_cases h : k1 = k
    · simp [hasKey, jLookup, h]
    · simp only [hasKey, jLookup, if_neg h, List.map_cons, List.mem_cons]
      rw [← hasKey]
      rw [ih]
      constructor
      · intro hm
        exact Or.inr hm
      · rintro (hm | hm)
        · exact absurd hm.symm h
        · exact hm

/-- Setting a key leaves the key list unchanged when the key is present
and appends it otherwise. -/
theorem keys_objSet (o : JObj) (k : String) (v : JValue) :
    (objSet o k v).map Prod.fst =
      if hasKey o k = true then o.map Prod.fst else o.map Prod.fst ++ [k] := by
  induction o with
  | nil => simp [objSet, hasKey, jLookup]
  | cons kv rest ih =>
    rcases kv with ⟨k1, v1⟩
    by_cases h : k1 = k
    · simp [objSet, hasKey, jLookup, h]
    · simp only [objSet, if_neg h, List.map_cons, hasKey, jLookup]
      rw [← hasKey]
      rw [ih]
      by_cases h2 : hasKey rest k = true
      · simp [h2]
      · simp [h2]

/-- objSet preserves key well-formedness. -/
theorem nodupKeys_objSet (o : JObj) (k : String) (v : JValue)
    (h : nodupKeys o) : nodupKeys (objSet o k v) := by
  unfold nodupKeys at *
  rw [keys_objSet]
  by_cases h2 : hasKey o k = true
  · simpa [h2] using h
  · rw [if_neg h2]
    rw [List.nodup_append]
    refine ⟨h, List.nodup_singleton k, ?_⟩
    intro x hx hx2
    rw [List.mem_singleton] at hx2
    subst hx2
    exact h2 ((hasKey_iff_mem o x).mpr hx)

/-- objUpdate preserves key well-formedness. -/
theorem nodupKeys_objUpdate (patch : JObj) :
    ∀ (o : JObj), nodupKeys o → nodupKeys (objUpdate o patch) := by
  induction patch with
  | nil => intro o h; exact h
  | cons kv rest ih =>
    intro o h
    exact ih (objSet o kv.1 kv.2) (nodupKeys_objSet o kv.1 kv.2 h)

/-- The key just set is present. -/
theorem hasKey_objSet_self (o : JObj) (k : String) (v : JValue) :
    hasKey (objSet o k v) k = true := by
  induction o with
  | nil => simp [objSet, hasKey, jLookup]
  | cons kv rest ih =>
    rcases kv with ⟨k1, v1⟩
    by_cases h : k1 = k
    · simp [objSet, hasKey, jLookup, h]
    · simpa [objSet, hasKey, jLookup, h] using ih

/-- Setting a key does not remove any key. -/
theorem hasKey_objSet_mono (o : JObj) (k k2 : String) (v : JValue)
    (h : hasKey o k2 = true) : hasKey (objSet o k v) k2 = true := by
  rw [hasKey_iff_mem] at *
  rw [keys_objSet]
  by_cases h2 : hasKey o k = true
  · simpa [h2] using h
  · rw [if_neg h2]
    exact List.mem_append_left _ h

/-- Updating does not remove any key. -/
theorem hasKey_objUpdate_mono (patch : JObj) :
    ∀ (o : JObj) (k2 : String), hasKey o k2 = true →
      hasKey (objUpdate o patch) k2 = true := by
  induction patch with
  | nil => intro o k2 h; exact h
  | cons kv rest ih =>
    intro o k2 h
    exact ih (objSet o kv.1 kv.2) k2 (hasKey_objSet_mono o kv.1 k2 kv.2 h)

/-- hasKey over a cons cell. -/
theorem hasKey_cons (k1 : String) (v : JValue) (rest : JObj) (k2 : String) :
    hasKey ((k1, v) :: rest) k2 = if k1 = k2 then true else hasKey rest k2 := by
  by_cases h : k1 = k2
  · simp [hasKey, jLookup, h]
  · rw [if_neg h]
    show (jLookup ((k1, v) :: rest) k2).isSome = hasKey rest k2
    unfold jLookup
    rw [if_neg h]
    rfl

/-- Popping one key leaves the other keys alone. -/
theorem hasKey_objPop_ne (o : JObj) (key k2 : String) (h : k2 ≠ key) :
    hasKey (objPop o key) k2 = hasKey o k2 := by
  induction o with
  | nil => rfl
  | cons kv rest ih =>
    rcases kv with ⟨k1, v1⟩
    by_cases h1 : k1 = key
    · subst h1
      rw [show objPop ((k1, v1) :: rest) k1 = rest from by simp [objPop]]
      rw [hasKey_cons]
      rw [if_neg (fun he => h he.symm)]
    · rw [show objPop ((k1, v1) :: rest) key = (k1, v1) :: objPop rest key from by
        simp [objPop, h1]]
      rw [hasKey_cons, hasKey_cons]
      by_cases h2 : k1 = k2
      · simp [h2]
      · simp [h2, ih]

/-- Popping a key from a well-formed object removes it. -/
theorem hasKey_objPop_self (o : JObj) (key : String) (h : nodupKeys o) :
    hasKey (objPop o key) key = false := by
  induction o with
  | nil => rfl
  | cons kv rest ih =>
    rcases kv with ⟨k1, v1⟩
    unfold nodupKeys at h
    rw [List.map_cons, List.nodup_cons] at h
    by_cases h1 : k1 = key
    · subst h1
      rw [show objPop ((k1, v1) :: rest) k1 = rest from by simp [objPop]]
      rw [Bool.eq_false_iff]
      intro hk
      exact h.1 ((hasKey_iff_mem rest k1).mp hk)
    · rw [show objPop ((k1, v1) :: rest) key = (k1, v1) :: objPop rest key from by
        simp [objPop, h1]]
      rw [hasKey_cons, if_neg h1]
      exact ih h.2

/-! ## Theorems for C6 (max_tokens chain) -/

/-- The first value among the four max-token keys that is present and not
null, the reading of claim C6 (only null / absent values are skipped). -/
def firstNonNullMaxTokens (body : JObj) : JValue :=
  let pick (k : String) (next : JValue) : JValue :=
    match jLookup body k with
    | some v => if jIsNull v then next else v
    | none => next
  pick "max_tokens" (pick "maxTokens"
    (pick "max_output_tokens" (pick "maxOutputTokens" .null)))

/-- Claim C6 as stated: max_tokens is the first non-null value among the
four keys coerced to integer, the registry default when all four are
null, omitted for an unknown model. -/
def convert_max_tokens_claimed (body : JObj) (model_id : String) :
    Except String (Option Int) :=
  match firstNonNullMaxTokens body with
  | .null =>
    match get_model_info model_id with
    | some mi => .ok (some (mi.token_limit.default_tokens : Int))
    | none => .ok none
  | v => do
    let i ← pyInt v
    pure (some i)

/-- Counterexample for C6: with max_tokens equal to the (non-null, falsy)
number 0 and maxTokens equal to 5, the code skips the 0 through the
Python or-chain and emits 5, while the claim (first NON-NULL value) says
0. -/
theorem convert_max_tokens_counterexample :
    convert_max_tokens [("max_tokens", .num 0), ("maxTokens", .num 5)]
        "openai/gpt-4o" = .ok (some 5)
    ∧ convert_max_tokens_claimed [("max_tokens", .num 0), ("maxTokens", .num 5)]
        "openai/gpt-4o" = .ok (some 0)
    ∧ (Except.ok (some 5) : Except String (Option Int)) ≠ .ok (some 0) :=
  ⟨rfl, rfl, by simp⟩

/-- The first truthy value among the four max-token keys, falling back to
the raw maxOutputTokens value (the semantics of the Python or-chain). -/
def firstTruthyMaxTokens (body : JObj) : JValue :=
  let a := jGet body "max_tokens"
  let b := jGet body "maxTokens"
  let c := jGet body "max_output_tokens"
  let d := jGet body "maxOutputTokens"
  if pyTruthy a then a else if pyTruthy b then b else if pyTruthy c then c else d

/-- Claim C6 amended: the max_tokens output is the first truthy value
among max_tokens, maxTokens, max_output_tokens, maxOutputTokens (falsy
values such as 0 are skipped by the or-chain; when the first three are
falsy the raw maxOutputTokens value is used), coerced to integer; when
that chain yields null the registry default_tokens applies, and the key
is omitted when the model is unknown. -/
theorem convert_max_tokens_amended (body : JObj) (model_id : String) :
    convert_max_tokens body model_id =
      (match firstTruthyMaxTokens body with
      | .null =>
        match get_model_info model_id with
        | some mi => .ok (some (mi.token_limit.default_tokens : Int))
        | none => .ok none
      | v => do
        let i ← pyInt v
        pure (some i)) := by
  unfold convert_max_tokens firstTruthyMaxTokens pyOr
  by_cases ha : pyTruthy (jGet body "max_tokens") = true
  · simp [ha]
  · rw [Bool.not_eq_true] at ha
    by_cases hb : pyTruthy (jGet body "maxTokens") = true
    · simp [ha, hb]
    · rw [Bool.not_eq_true] at hb
      by_cases hc : pyTruthy (jGet body "max_output_tokens") = true
      · simp [ha, hb, hc]
      · rw [Bool.not_eq_true] at hc
        simp [ha, hb, hc]

/-! ## Theorems for C7 (effort to budget) -/

/-- The effort-to-ratio table exactly as the claim states it: minimal
0.1, low 0.25, medium 0.5, high 0.75, xhigh 1.0, auto 0.5 (0.5 for any
other effort). -/
def effortRatioSpec (e : String) : ℚ :=
  if e = "minimal" then 1 / 10
  else if e = "low" then 1 / 4
  else if e = "medium" then 1 / 2
  else if e = "high" then 3 / 4
  else if e = "xhigh" then 1
  else if e = "auto" then 1 / 2
  else 1 / 2

/-- Counterexample for C7: for effort minimal on the claude-opus-4 limits
(min 1024, max 32000) the code truncates (32000 - 1024) * 0.1 + 1024 =
4121.6 to 4121, while the round of the claim formula is 4122. -/
theorem calculate_budget_tokens_counterexample :
    calculate_budget_tokens (.str "minimal") 1024 32000 none = .ok 4121
    ∧ round (((32000 : ℚ) - 1024) * (1 / 10) + 1024) = 4122
    ∧ (4121 : Int) ≠ 4122 :=
  ⟨rfl, by rw [round_eq]; norm_num, by decide⟩

/-- The ratio table lies between 0 and 1. -/
theorem effortRatioSpec_bounds (e : String) :
    0 ≤ effortRatioSpec e ∧ effortRatioSpec e ≤ 1 := by
  unfold effortRatioSpec
  split_ifs <;> norm_num

/-- The executable lookup agrees with the claim table. -/
theorem effortFraction_eq_spec (e : String) :
    effortFraction (.str e) = .ok (effortRatioSpec e) := by
  unfold effortFraction effortRatioSpec
  by_cases h1 : e = "minimal"
  · norm_num [h1, Rat.mkRat_eq_div]
  · by_cases h2 : e = "low"
    · norm_num [h1, h2, Rat.mkRat_eq_div]
    · by_cases h3 : e = "medium"
      · norm_num [h1, h2, h3, Rat.mkRat_eq_div]
      · by_cases h4 : e = "high"
        · norm_num [h1, h2, h3, h4, Rat.mkRat_eq_div]
        · by_cases h5 : e = "xhigh"
          · norm_num [h1, h2, h3, h4, h5, Rat.mkRat_eq_div]
          · by_cases h6 : e = "auto"
            · norm_num [h1, h2, h3, h4, h5, h6, Rat.mkRat_eq_div]
            · norm_num [h1, h2, h3, h4, h5, h6, Rat.mkRat_eq_div]

/-- Claim C7 amended: with no explicit budget the computed thinking
budget is the claim formula with int() truncation in place of rounding
(the operand is nonnegative, so truncation is the floor), still with the
absolute floor of 1024; in particular the full pipeline emits
thinkingConfig.thinkingBudget 49408 with includeThoughts true for
gemini-2.5-pro at effort high. -/
theorem calculate_budget_tokens_amended :
    (∀ (e : String) (mn mx : Nat),
      calculate_budget_tokens (.str e) (mn : Int) (mx : Int) none
        = .ok (max 1024 ⌊((mx : ℚ) - (mn : ℚ)) * effortRatioSpec e + (mn : ℚ)⌋))
    ∧ convert_for_vercel_gateway
        [("model", .str "gemini-2.5-pro"), ("reasoning_effort", .str "high")]
      = .ok [("model", .str "google/gemini-2.5-pro-preview-06-05"),
             ("reasoning_effort", .str "high"),
             ("messages", .arr []),
             ("stream", .bool false),
             ("max_tokens", .num 8192),
             ("providerOptions", .obj [("google", .obj [("thinkingConfig",
                .obj [("thinkingBudget", .num 49408),
                      ("includeThoughts", .bool true)])])])] := by
  constructor
  · intro e mn mx
    unfold calculate_budget_tokens
    rw [effortFraction_eq_spec]
    show Except.ok (let budget := qTrunc (qAdd (qMul (qSub ((mx : Int) : ℚ) ((mn : Int) : ℚ))
        (effortRatioSpec e)) ((mn : Int) : ℚ));
      let budget := if budget < 1024 then 1024 else budget; budget) = _
    have hB : qAdd (qMul (qSub ((mx : Int) : ℚ) ((mn : Int) : ℚ)) (effortRatioSpec e))
        ((mn : Int) : ℚ) = ((mx : ℚ) - (mn : ℚ)) * effortRatioSpec e + (mn : ℚ) := by
      rw [qSub_eq, qMul_eq, qAdd_eq]
      push_cast
      ring
    rcases effortRatioSpec_bounds e with ⟨hr0, hr1⟩
    have hnn : 0 ≤ ((mx : ℚ) - (mn : ℚ)) * effortRatioSpec e + (mn : ℚ) := by
      have hmx : (0 : ℚ) ≤ (mx : ℚ) := Nat.cast_nonneg mx
      have hmn : (0 : ℚ) ≤ (mn : ℚ) := Nat.cast_nonneg mn
      nlinarith
    rw [hB, qTrunc_eq_floor _ hnn]
    simp only [Int.max_def]
    congr 1
    split_ifs <;> omega
  · rfl

/-! ## Theorems for C9 (alias closure) -/

/-- The model field of a normalized body, when conversion succeeds. -/
def convertedModelField (body : JObj) : Option String :=
  match convert_for_vercel_gateway body with
  | .ok o =>
    match jGet o "model" with
    | .str s => some s
    | _ => none
  | .error _ => none

/-- Claim C9: alias resolution is the first step of normalize_model_id,
so it takes precedence over every later normalization step, and for every
alias pair (a, c) of the table, converting a body whose model is a yields
a body whose model is exactly c. -/
theorem model_alias_closure :
    (∀ (a t : String), aliasLookup a = some t → normalize_model_id a = t)
    ∧ MODEL_ALIASES.all
        (fun p => convertedModelField [("model", .str p.1)] == some p.2) = true := by
  constructor
  · intro a t h
    have ha : ¬ a = "" := by
      intro he
      subst he
      rw [show aliasLookup "" = none from by decide] at h
      cases h
    unfold normalize_model_id
    rw [if_neg ha, h]
  · decide

/-- Witness for C9 at the alias gpt-4o. -/
theorem model_alias_closure_witness :
    normalize_model_id "gpt-4o" = "openai/gpt-4o" :=
  model_alias_closure.1 "gpt-4o" "openai/gpt-4o" (by decide)

/-! ## Theorems for C5 (normalizer output contract) -/

/-- Reduction of a successful Except bind. -/
@[simp] theorem exbind_ok {α β : Type} (a : α) (f : α → Except String β) :
    ((Except.ok a : Except String α) >>= f) = f a := rfl

/-- Reduction of a failing Except bind. -/
@[simp] theorem exbind_error {α β : Type} (e : String) (f : α → Except String β) :
    ((Except.error e : Except String α) >>= f) = Except.error e := rfl

/-- pure on Except is ok. -/
@[simp] theorem expure_eq {α : Type} (a : α) :
    (pure a : Except String α) = Except.ok a := rfl

/-- A successful convert_for_vercel_gateway is a successful convert with
preserve_original (the trailing pass only reads). -/
theorem convert_for_vercel_gateway_ok_inv (body : JObj) (o : JObj)
    (h : convert_for_vercel_gateway body = .ok o) :
    ∃ p, convert body true = .ok (o, p) := by
  unfold convert_for_vercel_gateway at h
  rcases hc : convert body true with e | cp
  · rw [hc] at h
    simp at h
  · rcases cp with ⟨c, p⟩
    rw [hc] at h
    rw [exbind_ok] at h
    dsimp only at h
    have hco : c = o := by
      rcases hpo : dictGetD c "providerOptions" (.obj []) with _ | b | q | s | xs | fs
      · rw [hpo] at h; simp at h
      · rw [hpo] at h; simp at h
      · rw [hpo] at h; simp at h
      · rw [hpo] at h
        by_cases hsub : containsSub p.value.toList s.toList = true
        all_goals simp_all
      · rw [hpo] at h
        by_cases hmem : (xs.any fun e2 => jIsStr e2 p.value) = true
        all_goals simp_all
      · rw [hpo] at h
        dsimp only at h
        by_cases hk : hasKey fs p.value = true
        · rw [if_pos hk] at h
          by_cases hpa : p = ProviderType.anthropic
          all_goals by_cases hpb : p = ProviderType.openai
          all_goals rcases hop : jGet fs p.value with _ | b2 | q2 | s2 | xs2 | fs2
          all_goals rw [hop] at h
          all_goals simp_all
        · rw [if_neg hk] at h
          simp_all
    refine ⟨p, ?_⟩
    rw [hco]

/-- Key preservation through an optional set step. -/
theorem hasKey_optSet {α : Type} (t : Option α) (r : JObj) (key k2 : String)
    (f : α → JValue) (h : hasKey r k2 = true) :
    hasKey (t.elim r (fun x => objSet r key (f x))) k2 = true := by
  cases t with
  | none => exact h
  | some x => exact hasKey_objSet_mono r key k2 (f x) h

/-- Well-formed keys through an optional set step. -/
theorem nodupKeys_optSet {α : Type} (t : Option α) (r : JObj) (key : String)
    (f : α → JValue) (h : nodupKeys r) :
    nodupKeys (t.elim r (fun x => objSet r key (f x))) := by
  cases t with
  | none => exact h
  | some x => exact nodupKeys_objSet r key (f x) h

/-- The common tail of the convert pipeline: flattening the custom
parameters and popping customParameters keeps model / messages / stream
and removes customParameters. -/
theorem convert_tail_keys (r7 custom : JObj)
    (hm : hasKey r7 "model" = true) (hg : hasKey r7 "messages" = true)
    (hs : hasKey r7 "stream" = true) (hn : nodupKeys r7) :
    hasKey (objPop (if custom.isEmpty = true then r7 else objUpdate r7 custom)
        "customParameters") "model" = true
    ∧ hasKey (objPop (if custom.isEmpty = true then r7 else objUpdate r7 custom)
        "customParameters") "messages" = true
    ∧ hasKey (objPop (if custom.isEmpty = true then r7 else objUpdate r7 custom)
        "customParameters") "stream" = true
    ∧ hasKey (objPop (if custom.isEmpty = true then r7 else objUpdate r7 custom)
        "customParameters") "customParameters" = false := by
  by_cases hce : custom.isEmpty = true
  · rw [if_pos hce]
    refine ⟨?_, ?_, ?_, ?_⟩
    · rw [hasKey_objPop_ne _ _ _ (by decide)]; exact hm
    · rw [hasKey_objPop_ne _ _ _ (by decide)]; exact hg
    · rw [hasKey_objPop_ne _ _ _ (by decide)]; exact hs
    · exact hasKey_objPop_self r7 _ hn
  · rw [if_neg hce]
    refine ⟨?_, ?_, ?_, ?_⟩
    · rw [hasKey_objPop_ne _ _ _ (by decide)]
      exact hasKey_objUpdate_mono custom r7 _ hm
    · rw [hasKey_objPop_ne _ _ _ (by decide)]
      exact hasKey_objUpdate_mono custom r7 _ hg
    · rw [hasKey_objPop_ne _ _ _ (by decide)]
      exact hasKey_objUpdate_mono custom r7 _ hs
    · exact hasKey_objPop_self _ _ (nodupKeys_objUpdate custom r7 hn)

/-- The customParameters tail of convert: once the first seven steps have
produced a result with model, messages and stream present and well-formed
keys, the remaining steps keep those keys and drop customParameters. -/
theorem convert_custom_tail (body o : JObj) (p pr : ProviderType) (r7 : JObj)
    (km : hasKey r7 "model" = true) (kg : hasKey r7 "messages" = true)
    (ks : hasKey r7 "stream" = true) (kn : nodupKeys r7)
    (hcc : (convert_custom_parameters body >>= fun custom =>
        Except.ok (objPop (if custom.isEmpty = true then r7 else objUpdate r7 custom)
          "customParameters", pr)) = Except.ok (o, p)) :
    hasKey o "model" = true ∧ hasKey o "messages" = true
    ∧ hasKey o "stream" = true ∧ hasKey o "customParameters" = false := by
  rcases hcu : convert_custom_parameters body with e | custom <;> rw [hcu] at hcc
  · simp at hcc
  · rw [exbind_ok] at hcc
    simp only [Except.ok.injEq, Prod.mk.injEq] at hcc
    rcases hcc with ⟨h3, -⟩
    subst h3
    exact convert_tail_keys r7 custom km kg ks kn

set_option maxHeartbeats 2000000 in
/-- Every successful run of convert with preserve_original yields a body
that contains model, messages and stream and no customParameters. -/
theorem convert_ok_contract (body o : JObj) (p : ProviderType)
    (hnd : nodupKeys body) (hc : convert body true = .ok (o, p)) :
    hasKey o "model" = true ∧ hasKey o "messages" = true
    ∧ hasKey o "stream" = true ∧ hasKey o "customParameters" = false := by
  unfold convert at hc
  rcases hm : dictGetD body "model" (.str "") with _ | b | q | s | xs | fs <;>
    rw [hm] at hc
  case null => simp at hc
  case bool => simp at hc
  case num => simp at hc
  case arr => simp at hc
  case obj => simp at hc
  case str =>
  simp only [expure_eq, exbind_ok] at hc
  rcases ht : convert_temperature body (detect_provider (normalize_model_id s))
    with e | tempO <;> rw [ht] at hc
  case error => simp at hc
  case ok =>
  simp only [exbind_ok] at hc
  rcases hmt : convert_max_tokens body (normalize_model_id s) with e | mtO <;>
    rw [hmt] at hc
  case error => simp at hc
  case ok =>
  simp only [exbind_ok] at hc
  rcases hstd : convert_standard_params body with e | std <;> rw [hstd] at hc
  case error => simp at hc
  case ok =>
  simp only [exbind_ok] at hc
  rcases hbp : build_provider_options body (normalize_model_id s)
      (detect_provider (normalize_model_id s)) with e | popts <;> rw [hbp] at hc
  case error => simp at hc
  case ok =>
  simp only [exbind_ok, if_true] at hc
  rcases tempO with _ | q0 <;> rcases mtO with _ | i0 <;> dsimp only at hc
  all_goals split at hc
  all_goals try split at hc
  all_goals try split at hc
  all_goals try simp only [expure_eq, exbind_ok, exbind_error] at hc
  all_goals first
    | (refine convert_custom_tail body o p _ _ ?_ ?_ ?_ ?_ hc <;>
        solve
        | (repeat
            first
            | exact hnd
            | apply nodupKeys_objUpdate
            | apply nodupKeys_objSet
            | exact hasKey_objSet_self _ "model" _
            | exact hasKey_objSet_self _ "messages" _
            | exact hasKey_objSet_self _ "stream" _
            | apply hasKey_objUpdate_mono
            | apply hasKey_objSet_mono))
    | exact Except.noConfusion hc

def c5Body : JObj := [("model", JValue.str "gpt-4o")]

def c5Out : JObj :=
  [("model", JValue.str "openai/gpt-4o"), ("messages", JValue.arr []),
   ("stream", JValue.bool false), ("max_tokens", JValue.num 4096)]

/-- C5: for every JSON-object request body (an association list with no
duplicate keys, as a Python dict has), a successful run of
convert_for_vercel_gateway returns a map that contains the keys model,
messages and stream and does not contain the key customParameters. -/
theorem convert_for_vercel_gateway_contract (body o : JObj)
    (hnd : nodupKeys body) (h : convert_for_vercel_gateway body = .ok o) :
    hasKey o "model" = true ∧ hasKey o "messages" = true
    ∧ hasKey o "stream" = true ∧ hasKey o "customParameters" = false := by
  obtain ⟨p, hp⟩ := convert_for_vercel_gateway_ok_inv body o h
  exact convert_ok_contract body o p hnd hp

/-- Witness for C5: the body with model "gpt-4o" normalizes successfully
and the output satisfies the contract. -/
theorem convert_for_vercel_gateway_contract_witness :
    hasKey c5Out "model" = true ∧ hasKey c5Out "messages" = true
    ∧ hasKey c5Out "stream" = true ∧ hasKey c5Out "customParameters" = false :=
  convert_for_vercel_gateway_contract c5Body c5Out
    (by simp [nodupKeys, c5Body]) (by rfl)

/-! ## Theorems for C8 (normalizer idempotence) -/

def c8Body : JObj :=
  [("model", JValue.str "deepseek/deepseek-chat"),
   ("customParameters", JValue.arr [JValue.obj
     [("name", JValue.str "enable_thinking"), ("value", JValue.bool true),
      ("type", JValue.str "boolean")]])]

def c8Out1 : JObj :=
  [("model", JValue.str "deepseek/deepseek-chat"), ("messages", JValue.arr []),
   ("stream", JValue.bool false), ("max_tokens", JValue.num 4096),
   ("enable_thinking", JValue.bool true)]

def c8Out2 : JObj :=
  [("model", JValue.str "deepseek/deepseek-chat"), ("messages", JValue.arr []),
   ("stream", JValue.bool false), ("max_tokens", JValue.num 4096),
   ("enable_thinking", JValue.bool true),
   ("providerOptions", JValue.obj
     [("deepseek", JValue.obj [("enable_thinking", JValue.bool true)])])]

/-- Counterexample to C8: a body whose customParameters inject the
enable_thinking flag normalizes to c8Out1 (already carrying the canonical
model id deepseek/deepseek-chat), yet a second normalization pass produces
c8Out2, which gains a providerOptions block c8Out1 does not have: the
normalizer is not idempotent. -/
theorem convert_idempotence_counterexample :
    convert_for_vercel_gateway c8Body = .ok c8Out1
    ∧ convert_for_vercel_gateway c8Out1 = .ok c8Out2
    ∧ hasKey c8Out1 "providerOptions" = false
    ∧ hasKey c8Out2 "providerOptions" = true :=
  ⟨rfl, rfl, rfl, rfl⟩

set_option maxHeartbeats 2000000 in
/-- C8 (amended): idempotence fails in general (see the counterexample),
but it does hold on minimal bodies consisting of a model id drawn from the
registry keys or from the alias table: the first pass canonicalizes the
model id and fills in messages, stream and the default max_tokens, and a
second pass maps that output to itself. -/
theorem convert_idempotent_amended (m : String)
    (hm : m ∈ SUPPORTED_MODELS.map Prod.fst ∨ m ∈ MODEL_ALIASES.map Prod.fst) :
    ∃ o, convert_for_vercel_gateway [("model", JValue.str m)] = .ok o
       ∧ convert_for_vercel_gateway o = .ok o := by
  rcases hm with hm | hm <;> fin_cases hm <;> exact ⟨_, rfl, rfl⟩

/-- Witness for C8 (amended): the minimal body for openai/gpt-4o. -/
theorem convert_idempotent_amended_witness :
    ("openai/gpt-4o" ∈ SUPPORTED_MODELS.map Prod.fst
      ∨ "openai/gpt-4o" ∈ MODEL_ALIASES.map Prod.fst)
    ∧ ∃ o, convert_for_vercel_gateway [("model", JValue.str "openai/gpt-4o")] = .ok o
         ∧ convert_for_vercel_gateway o = .ok o :=
  ⟨Or.inl (by decide),
   convert_idempotent_amended "openai/gpt-4o" (Or.inl (by decide))⟩
